import Mathlib

/-!
# Verification of the `s2-orbit-geometry` grid–orbit intersection pipeline

This file is a shallow embedding, in Lean 4, of the core of the
`s2_orbit_geometry` Python package:

* `parse_kml.py` — `load_grid`, `load_orbit_kml`, `to_2d`, `get_utm_epsg`,
  `intersect_grid_orbit_single_utm_zone` and `intersect_grid_orbits`;
* `available_tile_orbits.py` — `find_available_orbit_tiles`.

External I/O (reading KML/CSV files from disk) is modelled by passing the
parsed tables in as explicit lists of rows.  The external computational
geometry engine (shapely / pygeos / pyproj, reached through geopandas) is
modelled by a `GeometryApi` structure of uninterpreted operations; operations
that can raise a `pygeos.GEOSException` return `Except GEOSException _`.
Python-level exceptions are modelled with the `PyErr` type; a pandas
"vectorized" column operation that can raise is modelled by `mapE`, which
stops at the first failing element.
-/

set_option autoImplicit false

namespace S2Orbit

/-- Python-level exceptions that the embedded code can raise.
`geos` stands for `pygeos.GEOSException` (the only class caught by
`intersect_grid_orbits`); `valueError` covers pandas `ValueError`s
(the DataFrame-truthiness error and failed `astype`/`to_numeric`
conversions); `typeError` and `attrError` model `TypeError` /
`AttributeError` from the shapely constructors and accessors. -/
inductive PyErr
  | geos
  | valueError
  | typeError
  | attrError
deriving DecidableEq

/-- Error raised inside the geometry engine (`pygeos.GEOSException`). -/
inductive GEOSException
  | fault
deriving DecidableEq

/-- Elementwise application of a fallible operation over a column of values,
modelling a vectorized pandas/geopandas operation (`.map`, `.apply`,
`.astype`, `.to_crs`, …) that raises on the first bad element: the whole
column either converts, or the enclosing call raises. -/
def mapE {α β : Type} (f : α → Except PyErr β) : List α → Except PyErr (List β)
  | [] => Except.ok []
  | x :: xs =>
    match f x with
    | Except.error e => Except.error e
    | Except.ok y =>
      match mapE f xs with
      | Except.error e => Except.error e
      | Except.ok ys => Except.ok (y :: ys)

/-- Turn a geometry-engine result into a Python-level result
(a `GEOSException` escaping a shapely/pygeos call). -/
def liftGeos {α : Type} : Except GEOSException α → Except PyErr α
  | Except.ok a => Except.ok a
  | Except.error _ => Except.error PyErr.geos

/-- Decidable equality of results, for evaluating the embedding on concrete
inputs. -/
instance {ε α : Type} [DecidableEq ε] [DecidableEq α] : DecidableEq (Except ε α) :=
  fun a b =>
    match a, b with
    | Except.ok x, Except.ok y =>
      match decEq x y with
      | isTrue h => isTrue (congrArg Except.ok h)
      | isFalse h => isFalse (fun hc => h (Except.ok.inj hc))
    | Except.error x, Except.error y =>
      match decEq x y with
      | isTrue h => isTrue (congrArg Except.error h)
      | isFalse h => isFalse (fun hc => h (Except.error.inj hc))
    | Except.ok _, Except.error _ => isFalse (fun hc => Except.noConfusion hc)
    | Except.error _, Except.ok _ => isFalse (fun hc => Except.noConfusion hc)

/-! ## Geometry data model

Concrete shapely-style geometries: coordinates carry an optional third
(altitude) component, exactly what `to_2d` strips. -/

/-- A coordinate, with an optional altitude (`z`) component. -/
structure Coord where
  x : ℚ
  y : ℚ
  z : Option ℚ
deriving DecidableEq

/-- The data of one polygon: an exterior shell and a list of interior holes. -/
structure PolyData where
  shell : List Coord
  holes : List (List Coord)
deriving DecidableEq

/-- A simple (non-collection) shapely geometry. -/
inductive BasicGeom
  | point (c : Coord)
  | lineString (cs : List Coord)
  | polygon (p : PolyData)
  | multiPolygon (ps : List PolyData)
deriving DecidableEq

/-- A shapely geometry: either a simple geometry or a `GeometryCollection`
of simple geometries (the shape the Sentinel 2 KML grid file produces). -/
inductive Geometry
  | basic (g : BasicGeom)
  | collection (gs : List BasicGeom)
deriving DecidableEq

/-- Strip the altitude from one coordinate
(Python: `lambda x, y, z=None: (x, y)`). -/
def coordTo2d (c : Coord) : Coord :=
  { c with z := none }

/-- Strip altitudes from one polygon. -/
def polyTo2d (p : PolyData) : PolyData :=
  { shell := p.shell.map coordTo2d, holes := p.holes.map (fun h => h.map coordTo2d) }

/-- Strip altitudes from one simple geometry. -/
def basicTo2d : BasicGeom → BasicGeom
  | BasicGeom.point c => BasicGeom.point (coordTo2d c)
  | BasicGeom.lineString cs => BasicGeom.lineString (cs.map coordTo2d)
  | BasicGeom.polygon p => BasicGeom.polygon (polyTo2d p)
  | BasicGeom.multiPolygon ps => BasicGeom.multiPolygon (ps.map polyTo2d)

/-- `to_2d` from `parse_kml.py`:
`transform(lambda x, y, z=None: (x, y), geom)` applies the coordinate map to
every vertex of the geometry, dropping any third dimension. -/
def to_2d : Geometry → Geometry
  | Geometry.basic g => Geometry.basic (basicTo2d g)
  | Geometry.collection gs => Geometry.collection (gs.map basicTo2d)

/-- A coordinate is 2-D when it has no altitude component. -/
def coordIs2d (c : Coord) : Bool :=
  c.z.isNone

/-- All vertices of a polygon are 2-D. -/
def polyIs2d (p : PolyData) : Bool :=
  p.shell.all coordIs2d && p.holes.all (fun h => h.all coordIs2d)

/-- All vertices of a simple geometry are 2-D. -/
def basicIs2d : BasicGeom → Bool
  | BasicGeom.point c => coordIs2d c
  | BasicGeom.lineString cs => cs.all coordIs2d
  | BasicGeom.polygon p => polyIs2d p
  | BasicGeom.multiPolygon ps => ps.all polyIs2d

/-- All vertices of a geometry are 2-D. -/
def geomIs2d : Geometry → Bool
  | Geometry.basic g => basicIs2d g
  | Geometry.collection gs => gs.all basicIs2d

/-! ## Digit-string parsing helpers -/

/-- Numeric value of an ASCII digit character. -/
def digitVal (c : Char) : ℕ :=
  c.toNat - 48

/-- Value of a list of decimal digit characters. -/
def digitsVal (cs : List Char) : ℕ :=
  cs.foldl (fun acc c => acc * 10 + digitVal c) 0

/-- Parse a nonempty all-digit string to a natural number; anything else
raises, as `pd.to_numeric` / integer `astype` do on non-numeric input. -/
def parseNatDigits (s : String) : Except PyErr ℕ :=
  let cs := s.data
  if !cs.isEmpty && cs.all Char.isDigit then Except.ok (digitsVal cs)
  else Except.error PyErr.valueError

/-! ## `load_grid` -/

/-- One raw feature of the KML MGRS grid file (`gpd.read_file(grid_path,
layer='Features')`): a `Name` attribute (renamed into `tile_id`) and a
geometry. -/
structure GridFeature where
  name : String
  geometry : Geometry
deriving DecidableEq

/-- One row of the loaded grid table: the columns `load_grid` returns. -/
structure GridRow where
  tile_id : String
  geometry : Geometry
  utm_zone : ℕ
  utm_north : Bool
deriving DecidableEq

/-- shapely's `.geoms` accessor: defined on `GeometryCollection` and
`MultiPolygon`, an `AttributeError` on the simple geometries (shapely 1.x). -/
def geomsOf : Geometry → Except PyErr (List BasicGeom)
  | Geometry.collection gs => Except.ok gs
  | Geometry.basic (BasicGeom.multiPolygon ps) => Except.ok (ps.map BasicGeom.polygon)
  | Geometry.basic _ => Except.error PyErr.attrError

/-- `isinstance(g, (MultiPolygon, Polygon))`. -/
def isPolygonal : BasicGeom → Bool
  | BasicGeom.polygon _ => true
  | BasicGeom.multiPolygon _ => true
  | _ => false

/-- The shapely `MultiPolygon(...)` constructor accepts `Polygon` elements and
raises on anything else (it tries to read `exterior`/index into the object). -/
def polygonData : BasicGeom → Except PyErr PolyData
  | BasicGeom.polygon p => Except.ok p
  | _ => Except.error PyErr.typeError

/-- The polygon payload of a simple geometry, when it is a `Polygon`. -/
def polyDataOf : BasicGeom → Option PolyData
  | BasicGeom.polygon p => some p
  | _ => none

/-- The geometry normalization in `load_grid`:
`MultiPolygon([g for g in geom_collection.geoms if isinstance(g, (MultiPolygon, Polygon))])`. -/
def coerceToMultiPolygon (g : Geometry) : Except PyErr Geometry :=
  match geomsOf g with
  | Except.error e => Except.error e
  | Except.ok gs =>
    match mapE polygonData (gs.filter isPolygonal) with
    | Except.error e => Except.error e
    | Except.ok ps => Except.ok (Geometry.basic (BasicGeom.multiPolygon ps))

/-- `grid_gdf['tile_id'].str[:2].astype(np.uint8)`: the first two characters,
parsed as a decimal number, narrowed to `uint8`.  A shorter string keeps
whatever digits exist; a non-digit prefix makes `astype` raise. -/
def parseUtmZone (tile_id : String) : Except PyErr ℕ :=
  let cs := tile_id.data.take 2
  if !cs.isEmpty && cs.all Char.isDigit then Except.ok (digitsVal cs % 256)
  else Except.error PyErr.valueError

/-- `string.ascii_uppercase[13:]` — the latitude-band letters of the
northern hemisphere. -/
def northernBandChars : List Char :=
  "NOPQRSTUVWXYZ".data

/-- `grid_gdf['tile_id'].str[2].isin(list(string.ascii_uppercase[13:]))`:
a missing third character gives `NaN`, and `NaN.isin(...)` is `False`. -/
def parseUtmNorth (tile_id : String) : Bool :=
  match tile_id.data.get? 2 with
  | some c => northernBandChars.contains c
  | none => false

/-- Zip the computed columns of `load_grid` back into rows. -/
def buildGridRows : List GridFeature → List Geometry → List ℕ → List Bool → List GridRow
  | f :: fs, g :: gs, z :: zs, n :: ns =>
    { tile_id := f.name, geometry := g, utm_zone := z, utm_north := n } :: buildGridRows fs gs zs ns
  | _, _, _, _ => []

/-- `load_grid` from `parse_kml.py`: rename `Name` to `tile_id`, keep the
`tile_id`/`geometry` columns, coerce each geometry to 2-D, coerce each
`GeometryCollection` to a `MultiPolygon` of its polygonal members, and derive
the `utm_zone` and `utm_north` columns from the tile id. -/
def load_grid (rows : List GridFeature) : Except PyErr (List GridRow) :=
  match mapE (fun r => coerceToMultiPolygon (to_2d r.geometry)) rows with
  | Except.error e => Except.error e
  | Except.ok geoms =>
    match mapE (fun r => parseUtmZone r.name) rows with
    | Except.error e => Except.error e
    | Except.ok zones =>
      Except.ok (buildGridRows rows geoms zones (rows.map (fun r => parseUtmNorth r.name)))

/-! ## `load_orbit_kml` -/

/-- One raw feature of the orbit ground-track KML
(`layer='SENTINEL2A ORBIT Ground-Track'`): the `Relative_Orbit` attribute as
read from the file (a string), and a line geometry. -/
structure OrbitFeature where
  relative_orbit : String
  geometry : Geometry
deriving DecidableEq

/-- One row of the loaded orbit table. -/
structure OrbitRow where
  relative_orbit : ℕ
  geometry : Geometry
deriving DecidableEq

/-- `load_orbit_kml` from `parse_kml.py`: drop the Z dimension, rename
`Relative_Orbit` to `relative_orbit`, keep the two columns, and convert the
orbit strings with `pd.to_numeric(..., downcast='unsigned')` (the downcast
only narrows the dtype; values are preserved).  No duplicate handling of any
kind is performed. -/
def load_orbit_kml (rows : List OrbitFeature) : Except PyErr (List OrbitRow) :=
  match mapE (fun r => parseNatDigits r.relative_orbit) rows with
  | Except.error e => Except.error e
  | Except.ok orbits =>
    Except.ok (List.zipWith
      (fun o g => { relative_orbit := o, geometry := g : OrbitRow })
      orbits (rows.map (fun r => to_2d r.geometry)))

/-! ## The geometry engine

The pipeline orchestrates calls into shapely / pygeos / pyproj; it implements
no geometric predicate itself.  Those capabilities are therefore modelled as
an uninterpreted structure of operations.  Operations that can raise a
`pygeos.GEOSException` (reprojection of or set operations on degenerate
geometry) return `Except GEOSException _`. -/

/-- A bounding rectangle, as returned by `GeoDataFrame.total_bounds`
(`minx, miny, maxx, maxy`). -/
structure Rect where
  minx : ℚ
  miny : ℚ
  maxx : ℚ
  maxy : ℚ
deriving DecidableEq

/-- A coordinate reference system selector, as passed to `to_crs(epsg=...)`:
the code passes the UTM code as a string and `4326` as an integer. -/
inductive Epsg
  | str (code : String)
  | num (code : ℕ)
deriving DecidableEq

/-- The external computational-geometry engine. `buffer` takes the distance
and the `cap_style` code (shapely: round = 1, flat = 2, square = 3). -/
structure GeometryApi where
  total_bounds : List Geometry → Rect
  box : Rect → Geometry
  intersects : Geometry → Geometry → Bool
  intersection : Geometry → Geometry → Except GEOSException Geometry
  buffer : Geometry → ℕ → ℕ → Geometry
  to_crs : Epsg → Geometry → Except GEOSException Geometry

/-! ## `intersect_grid_orbit_single_utm_zone` -/

/-- One output row of the pipeline: the `keep_cols` columns
`['tile_id', 'geometry', 'utm_zone', 'utm_north', 'relative_orbit']`. -/
structure CoverageRecord where
  tile_id : String
  geometry : Geometry
  utm_zone : ℕ
  utm_north : Bool
  relative_orbit : ℕ
deriving DecidableEq

/-- `get_utm_epsg` from `parse_kml.py`: `f'326{utm_zone:02}'` for the
northern hemisphere, `f'327{utm_zone:02}'` for the southern. -/
def get_utm_epsg (utm_zone : ℕ) (north : Bool) : String :=
  let s := toString utm_zone
  let padded := if s.length < 2 then "0" ++ s else s
  if north then "326" ++ padded else "327" ++ padded

/-- `bbox = box(*group_gdf.total_bounds)`: the zone's working bounding box,
computed from the actual total extent of the zone's tile group. -/
def zoneBbox (api : GeometryApi) (group_gdf : List GridRow) : Geometry :=
  api.box (api.total_bounds (group_gdf.map GridRow.geometry))

/-- `local_utm_orbits.geometry.intersection(bbox)`: clip each surviving
ground-track to the bounding box. -/
def clipToBbox (api : GeometryApi) (bbox : Geometry) (rows : List OrbitRow) :
    Except PyErr (List OrbitRow) :=
  mapE (fun r => (liftGeos (api.intersection r.geometry bbox)).map
    (fun g => { r with geometry := g })) rows

/-- `group_gdf.to_crs(epsg=epsg_code)` on the tile group. -/
def reprojectGridRows (api : GeometryApi) (epsg : Epsg) (rows : List GridRow) :
    Except PyErr (List GridRow) :=
  mapE (fun t => (liftGeos (api.to_crs epsg t.geometry)).map
    (fun g => { t with geometry := g })) rows

/-- `local_utm_orbits.to_crs(epsg=epsg_code)` on the clipped ground-tracks. -/
def reprojectOrbitRows (api : GeometryApi) (epsg : Epsg) (rows : List OrbitRow) :
    Except PyErr (List OrbitRow) :=
  mapE (fun r => (liftGeos (api.to_crs epsg r.geometry)).map
    (fun g => { r with geometry := g })) rows

/-- The half-swath-width constant of the source: "The swath is 290km, or
145km on each side", i.e. 145 000 length units of the local coordinate
system. -/
def swathHalfWidth : ℕ :=
  145000

/-- shapely `CAP_STYLE.round`. -/
def capStyleRound : ℕ :=
  1

/-- shapely `CAP_STYLE.flat`. -/
def capStyleFlat : ℕ :=
  2

/-- shapely `CAP_STYLE.square`. -/
def capStyleSquare : ℕ :=
  3

/-- `local_utm_orbits.buffer(145_000, cap_style=3)`: the swath of each orbit,
145 km on each side of the track, with a square cap (`cap_style=3`). -/
def buildSwaths (api : GeometryApi) (orbits : List OrbitRow) : List OrbitRow :=
  orbits.map (fun r => { r with geometry := api.buffer r.geometry 145000 3 })

/-- `gpd.sjoin(local_grid, local_utm_swaths, op='intersects')`, merged back
with the swath geometries: all (tile, swath) pairs whose geometries
intersect. -/
def sjoinIntersects (api : GeometryApi) (grid : List GridRow)
    (swaths : List OrbitRow) : List (GridRow × OrbitRow) :=
  grid.flatMap (fun t =>
    (swaths.filter (fun s => api.intersects t.geometry s.geometry)).map
      (fun s => (t, s)))

/-- `joined.geometry.intersection(joined.geometry_swath)`: the exact
tile × swath intersection geometry, one output record per joined pair. -/
def intersectPairs (api : GeometryApi) (pairs : List (GridRow × OrbitRow)) :
    Except PyErr (List CoverageRecord) :=
  mapE (fun p => (liftGeos (api.intersection p.1.geometry p.2.geometry)).map
    (fun g =>
      { tile_id := p.1.tile_id, geometry := g, utm_zone := p.1.utm_zone,
        utm_north := p.1.utm_north, relative_orbit := p.2.relative_orbit :
        CoverageRecord })) pairs

/-- `joined[keep_cols].to_crs(epsg=4326)`: reproject the result back to the
global coordinate system. -/
def reprojectRecords (api : GeometryApi) (epsg : Epsg)
    (recs : List CoverageRecord) : Except PyErr (List CoverageRecord) :=
  mapE (fun c => (liftGeos (api.to_crs epsg c.geometry)).map
    (fun g => { c with geometry := g })) recs

/-- `intersect_grid_orbit_single_utm_zone` from `parse_kml.py`.

Note the `if filter_orbits_df:` statement of the source: `filter_orbits_df`
is either `None` (falsy) or a pandas `DataFrame`, and `DataFrame.__bool__`
unconditionally raises `ValueError` ("The truth value of a DataFrame is
ambiguous"), so a supplied filter makes the function raise at that line,
before the inner join it guards is ever performed. -/
def intersect_grid_orbit_single_utm_zone (api : GeometryApi)
    (group_gdf : List GridRow) (orbit_gdf : List OrbitRow)
    (utm_zone : ℕ) (utm_north : Bool)
    (filter_orbits_df : Option (List (String × ℕ))) :
    Except PyErr (List CoverageRecord) :=
  let bbox := zoneBbox api group_gdf
  -- Keep orbits that intersect this bbox
  let local_utm_orbits := orbit_gdf.filter (fun r => api.intersects r.geometry bbox)
  -- Intersect with bbox
  match clipToBbox api bbox local_utm_orbits with
  | Except.error e => Except.error e
  | Except.ok clipped =>
    -- Reproject to UTM zone
    let epsg_code := get_utm_epsg utm_zone utm_north
    match reprojectGridRows api (Epsg.str epsg_code) group_gdf with
    | Except.error e => Except.error e
    | Except.ok local_grid =>
      match reprojectOrbitRows api (Epsg.str epsg_code) clipped with
      | Except.error e => Except.error e
      | Except.ok reprojected =>
        -- Get swath for each orbit
        let local_utm_swaths := buildSwaths api reprojected
        -- Spatial join with the grid, then intersect geometries
        match intersectPairs api (sjoinIntersects api local_grid local_utm_swaths) with
        | Except.error e => Except.error e
        | Except.ok joined =>
          -- `if filter_orbits_df:` — DataFrame truthiness raises ValueError
          match filter_orbits_df with
          | some _ => Except.error PyErr.valueError
          | none =>
            -- Keep selected columns and reproject back to WGS84
            reprojectRecords api (Epsg.num 4326) joined

/-! ## `intersect_grid_orbits` -/

/-- The groupby key: `['utm_zone', 'utm_north']`. -/
def gridKey (r : GridRow) : ℕ × Bool :=
  (r.utm_zone, r.utm_north)

/-- pandas sorts group keys ascending; tuples lexicographically with
`False < True`. -/
def keyLe (a b : ℕ × Bool) : Bool :=
  a.1 < b.1 || (a.1 == b.1 && (!a.2 || b.2))

/-- Insert a key into a sorted key list. -/
def insertKeySorted (k : ℕ × Bool) : List (ℕ × Bool) → List (ℕ × Bool)
  | [] => [k]
  | k' :: ks => if keyLe k k' then k :: k' :: ks else k' :: insertKeySorted k ks

/-- Insertion sort of the group keys. -/
def sortKeys (ks : List (ℕ × Bool)) : List (ℕ × Bool) :=
  ks.foldr insertKeySorted []

/-- `grid_gdf.groupby(['utm_zone', 'utm_north'])`: one group per distinct
key, keys in sorted order, rows of each group in original order. -/
def groupby (rows : List GridRow) : List ((ℕ × Bool) × List GridRow) :=
  (sortKeys (rows.map gridKey).dedup).map
    (fun k => (k, rows.filter (fun r => decide (gridKey r = k))))

/-- The output of one full run of `intersect_grid_orbits`: the per-zone
result tables the generator yielded, the diagnostic messages printed, and
the exception (if any) that escaped the generator and aborted the run. -/
structure RunResult where
  results : List (List CoverageRecord)
  messages : List String
  err : Option PyErr
deriving DecidableEq

/-- The diagnostic printed for a skipped antimeridian zone. -/
def datelineMsg : String :=
  "Not implemented for UTM zones 1 and 60 due to dateline issues"

/-- The per-group loop of `intersect_grid_orbits`: groups with
`utm_zone == 1 or utm_zone == 60` print a notice and are skipped; for other
groups `intersect_grid_orbit_single_utm_zone` is called inside
`try: ... except pygeos.GEOSException: pass`, so a `GEOSException` skips the
group with no other effect, while any other exception escapes the generator
and aborts the run. -/
def runZones (api : GeometryApi) (orbit_gdf : List OrbitRow)
    (filter_orbits_df : Option (List (String × ℕ))) :
    List ((ℕ × Bool) × List GridRow) → RunResult
  | [] => { results := [], messages := [], err := none }
  | (k, g) :: rest =>
    if k.1 = 1 ∨ k.1 = 60 then
      let r := runZones api orbit_gdf filter_orbits_df rest
      { results := r.results, messages := datelineMsg :: r.messages, err := r.err }
    else
      match intersect_grid_orbit_single_utm_zone api g orbit_gdf k.1 k.2 filter_orbits_df with
      | Except.ok recs =>
        let r := runZones api orbit_gdf filter_orbits_df rest
        { results := recs :: r.results, messages := r.messages, err := r.err }
      | Except.error PyErr.geos => runZones api orbit_gdf filter_orbits_df rest
      | Except.error e => { results := [], messages := [], err := some e }

/-- `intersect_grid_orbits` from `parse_kml.py`: load the two tables; if a
(truthy, i.e. nonempty) `filter_orbits` dict is supplied, keep only grid
rows whose tile id is one of its keys and build the `filter_orbits_df`
DataFrame of (tile_id, relative_orbit) rows; then process the
`(utm_zone, utm_north)` groups in order. -/
def intersect_grid_orbits (api : GeometryApi) (grid_rows : List GridFeature)
    (orbit_rows : List OrbitFeature)
    (filter_orbits : Option (List (String × List ℕ))) : RunResult :=
  match load_grid grid_rows with
  | Except.error e => { results := [], messages := [], err := some e }
  | Except.ok grid_gdf =>
    match load_orbit_kml orbit_rows with
    | Except.error e => { results := [], messages := [], err := some e }
    | Except.ok orbit_gdf =>
      match filter_orbits with
      | some fos =>
        if fos.isEmpty then
          runZones api orbit_gdf none (groupby grid_gdf)
        else
          let filtered := grid_gdf.filter
            (fun r => fos.any (fun p => decide (p.1 = r.tile_id)))
          let filter_orbits_df := fos.flatMap (fun p => p.2.map (fun o => (p.1, o)))
          runZones api orbit_gdf (some filter_orbits_df) (groupby filtered)
      | none => runZones api orbit_gdf none (groupby grid_gdf)

/-! ## `find_available_orbit_tiles` (`available_tile_orbits.py`) -/

/-- One record of the Google Cloud Storage Sentinel 2 catalog index (after
the lower-casing rename): the `product_id` and `mgrs_tile` columns. -/
structure IndexRecord where
  product_id : String
  mgrs_tile : String
deriving DecidableEq

/-- Try to match the regex `_R(\d{3})_` at the current position. -/
def matchOrbitAt : List Char → Option ℕ
  | '_' :: 'R' :: a :: b :: c :: '_' :: _ =>
    if a.isDigit && b.isDigit && c.isDigit then
      some (digitVal a * 100 + digitVal b * 10 + digitVal c)
    else none
  | _ => none

/-- `df['product_id'].str.extract(r'_R(?P<orbit>\d{3})_')`: the first match
of the pattern when scanning left to right, or `None` (pandas `NaN`). -/
def findOrbitMarker : List Char → Option ℕ
  | [] => none
  | c :: cs =>
    match matchOrbitAt (c :: cs) with
    | some v => some v
    | none => findOrbitMarker cs

/-- `df.drop_duplicates()`: keep the first occurrence of each row. -/
def dropDuplicates {α : Type} [DecidableEq α] : List α → List α
  | [] => []
  | x :: xs => x :: (dropDuplicates xs).filter (fun y => decide (y ≠ x))

/-- The accumulated tile → orbit-set mapping (`Dict[str, Set[int]]`). -/
def TileOrbits : Type :=
  String → Finset ℕ

/-- `tile_orbits[row.mgrs_tile] = tile_orbits.get(row.mgrs_tile, set())`
followed by `tile_orbits[row.mgrs_tile].add(row.orbit)`. -/
def addPair (m : TileOrbits) (p : String × ℕ) : TileOrbits :=
  fun t => if t = p.1 then insert p.2 (m p.1) else m t

/-- The `for row in df.itertuples()` accumulation over one chunk. -/
def accumChunk (m : TileOrbits) (pairs : List (String × ℕ)) : TileOrbits :=
  pairs.foldl addPair m

/-- The per-record extraction: the orbit from the product id via the
`_R(\d{3})_` regex, converted with `.astype(np.uint8)`.  A record with no
match extracts to `NaN`, and converting `NaN` to an integer dtype raises
`ValueError`; a matched three-digit value is narrowed to `uint8`, i.e.
reduced modulo 256. -/
def extractPair (r : IndexRecord) : Except PyErr (String × ℕ) :=
  match findOrbitMarker r.product_id.data with
  | some v => Except.ok (r.mgrs_tile, v % 256)
  | none => Except.error PyErr.valueError

/-- The per-chunk column pipeline: extract the (tile, orbit) pair of every
record of the chunk; the conversion raises for the whole chunk if any
record fails to match. -/
def chunkPairs (chunk : List IndexRecord) : Except PyErr (List (String × ℕ)) :=
  mapE extractPair chunk

/-- Fold the chunk stream into the mapping. -/
def runChunks (m : TileOrbits) : List (List IndexRecord) → Except PyErr TileOrbits
  | [] => Except.ok m
  | chunk :: rest =>
    match chunkPairs chunk with
    | Except.error e => Except.error e
    | Except.ok pairs => runChunks (accumChunk m (dropDuplicates pairs)) rest

/-- `find_available_orbit_tiles` from `available_tile_orbits.py`: stream the
catalog in chunks (`pd.read_csv(index_path, chunksize=100_000)` — the chunk
boundaries are supplied here as the input's list structure), extract the
(tile, orbit) pairs of each chunk, drop within-chunk duplicates, and merge
everything into a tile → orbit-set mapping. -/
def find_available_orbit_tiles (chunks : List (List IndexRecord)) :
    Except PyErr TileOrbits :=
  runChunks (fun _ => (∅ : Finset ℕ)) chunks

/-- Modelled from the claim wording of C6 ("orbit numbers appearing as three
digits after the literal `_R` marker"): a match of `_R` followed by three
digits, with no requirement of a trailing underscore, tried at one
position. -/
def matchOrbitAfterMarker : List Char → Option ℕ
  | '_' :: 'R' :: a :: b :: c :: _ =>
    if a.isDigit && b.isDigit && c.isDigit then
      some (digitVal a * 100 + digitVal b * 10 + digitVal c)
    else none
  | _ => none

/-- Modelled from the claim wording of C6: all orbit numbers appearing as
three digits after the literal `_R` marker anywhere in the string. -/
def allOrbitsAfterMarker : List Char → List ℕ
  | [] => []
  | c :: cs =>
    match matchOrbitAfterMarker (c :: cs) with
    | some v => v :: allOrbitsAfterMarker cs
    | none => allOrbitsAfterMarker cs

/-- Modelled from the claim wording of C6: for each tile code, "the set of
all orbit numbers appearing as three digits after the literal `_R` marker in
that tile's product identifiers". -/
def claimOrbitSet (records : List IndexRecord) (t : String) : Finset ℕ :=
  ((records.filter (fun r => decide (r.mgrs_tile = t))).flatMap
    (fun r => allOrbitsAfterMarker r.product_id.data)).toFinset

/-- What the code actually extracts, per tile: the first match of
`_R(\d{3})_` in each of the tile's product ids, reduced modulo 256 by the
`uint8` conversion. -/
def codeOrbitSet (records : List IndexRecord) (t : String) : Finset ℕ :=
  ((records.filter (fun r => decide (r.mgrs_tile = t))).filterMap
    (fun r => (findOrbitMarker r.product_id.data).map (fun v => v % 256))).toFinset

/-! ## General lemmas about the embedding combinators -/

theorem mapE_forall₂ {α β : Type} {f : α → Except PyErr β} :
    ∀ {xs : List α} {ys : List β}, mapE f xs = Except.ok ys →
      List.Forall₂ (fun x y => f x = Except.ok y) xs ys := by
  intro xs
  induction xs with
  | nil => intro ys h; simp only [mapE] at h; injection h with h; subst h; exact List.Forall₂.nil
  | cons x xs ih =>
    intro ys h
    simp only [mapE] at h
    cases hfx : f x with
    | error e => rw [hfx] at h; exact absurd h (by simp)
    | ok y =>
      rw [hfx] at h
      cases hrest : mapE f xs with
      | error e => rw [hrest] at h; exact absurd h (by simp)
      | ok ys0 =>
        rw [hrest] at h
        injection h with h; subst h
        exact List.Forall₂.cons hfx (ih hrest)

theorem forall₂_mem_right {α β : Type} {R : α → β → Prop} :
    ∀ {xs : List α} {ys : List β}, List.Forall₂ R xs ys → ∀ {y : β}, y ∈ ys →
      ∃ x ∈ xs, R x y := by
  intro xs ys h
  induction h with
  | nil => intro y hy; simp at hy
  | cons hR _ ih =>
    intro y hy
    rcases List.mem_cons.mp hy with rfl | hy'
    · exact ⟨_, List.mem_cons_self _ _, hR⟩
    · obtain ⟨x, hx, hRx⟩ := ih hy'
      exact ⟨x, List.mem_cons_of_mem _ hx, hRx⟩

theorem forall₂_mem_left {α β : Type} {R : α → β → Prop} :
    ∀ {xs : List α} {ys : List β}, List.Forall₂ R xs ys → ∀ {x : α}, x ∈ xs →
      ∃ y ∈ ys, R x y := by
  intro xs ys h
  induction h with
  | nil => intro x hx; simp at hx
  | cons hR _ ih =>
    intro x hx
    rcases List.mem_cons.mp hx with rfl | hx'
    · exact ⟨_, List.mem_cons_self _ _, hR⟩
    · obtain ⟨y, hy, hRy⟩ := ih hx'
      exact ⟨y, List.mem_cons_of_mem _ hy, hRy⟩

theorem mapE_ok_mem {α β : Type} {f : α → Except PyErr β} {xs : List α}
    {ys : List β} (h : mapE f xs = Except.ok ys) {y : β} (hy : y ∈ ys) :
    ∃ x ∈ xs, f x = Except.ok y :=
  forall₂_mem_right (mapE_forall₂ h) hy

theorem mapE_ok_mem_left {α β : Type} {f : α → Except PyErr β} {xs : List α}
    {ys : List β} (h : mapE f xs = Except.ok ys) {x : α} (hx : x ∈ xs) :
    ∃ y ∈ ys, f x = Except.ok y :=
  forall₂_mem_left (mapE_forall₂ h) hx

theorem mapE_error_elim {α β : Type} {f : α → Except PyErr β} :
    ∀ {xs : List α} {e : PyErr}, mapE f xs = Except.error e →
      ∃ x ∈ xs, f x = Except.error e := by
  intro xs
  induction xs with
  | nil => intro e h; simp [mapE] at h
  | cons x xs ih =>
    intro e h
    simp only [mapE] at h
    cases hfx : f x with
    | error e0 =>
      rw [hfx] at h
      injection h with h; subst h
      exact ⟨x, List.mem_cons_self _ _, hfx⟩
    | ok y =>
      rw [hfx] at h
      cases hrest : mapE f xs with
      | error e0 =>
        rw [hrest] at h
        injection h with h; subst h
        obtain ⟨x', hx', hfx'⟩ := ih hrest
        exact ⟨x', List.mem_cons_of_mem _ hx', hfx'⟩
      | ok ys0 => rw [hrest] at h; exact absurd h (by simp)

theorem mapE_ok_of_forall {α β : Type} {f : α → Except PyErr β} :
    ∀ {xs : List α}, (∀ x ∈ xs, ∃ y, f x = Except.ok y) →
      ∃ ys, mapE f xs = Except.ok ys := by
  intro xs
  induction xs with
  | nil => intro _; exact ⟨[], rfl⟩
  | cons x xs ih =>
    intro h
    obtain ⟨y, hy⟩ := h x (List.mem_cons_self _ _)
    obtain ⟨ys, hys⟩ := ih (fun x' hx' => h x' (List.mem_cons_of_mem _ hx'))
    exact ⟨y :: ys, by simp only [mapE, hy, hys]⟩

theorem liftGeos_map_error {α β : Type} {x : Except GEOSException α}
    {f : α → β} {e : PyErr} (h : (liftGeos x).map f = Except.error e) :
    e = PyErr.geos := by
  cases x with
  | ok a => simp [liftGeos, Except.map] at h
  | error e0 =>
    simp only [liftGeos, Except.map] at h
    injection h with h
    exact h.symm

theorem liftGeos_map_ok {α β : Type} {x : Except GEOSException α}
    {f : α → β} {y : β} (h : (liftGeos x).map f = Except.ok y) :
    ∃ a, x = Except.ok a ∧ y = f a := by
  cases x with
  | ok a =>
    simp only [liftGeos, Except.map] at h
    injection h with h
    exact ⟨a, rfl, h.symm⟩
  | error e0 => simp [liftGeos, Except.map] at h

/-! ## Lemmas about `intersect_grid_orbit_single_utm_zone` -/

theorem sjoinIntersects_mem {api : GeometryApi} {grid : List GridRow}
    {swaths : List OrbitRow} {p : GridRow × OrbitRow}
    (h : p ∈ sjoinIntersects api grid swaths) :
    p.1 ∈ grid ∧ p.2 ∈ swaths ∧ api.intersects p.1.geometry p.2.geometry = true := by
  simp only [sjoinIntersects, List.mem_flatMap, List.mem_map, List.mem_filter] at h
  obtain ⟨t, ht, s, ⟨hs, hint⟩, hp⟩ := h
  subst hp
  exact ⟨ht, hs, hint⟩

theorem buildSwaths_mem {api : GeometryApi} {orbits : List OrbitRow}
    {s : OrbitRow} (h : s ∈ buildSwaths api orbits) :
    ∃ r ∈ orbits, s = { r with geometry := api.buffer r.geometry 145000 3 } := by
  simp only [buildSwaths, List.mem_map] at h
  obtain ⟨r, hr, hs⟩ := h
  exact ⟨r, hr, hs.symm⟩

/-- Elimination principle for a successful single-zone run: the filter must
have been `None` (a supplied filter DataFrame raises `ValueError` at the
truthiness check), and every stage of the pipeline succeeded. -/
theorem singleZone_ok_elim {api : GeometryApi} {group_gdf : List GridRow}
    {orbit_gdf : List OrbitRow} {utm_zone : ℕ} {utm_north : Bool}
    {fdf : Option (List (String × ℕ))} {recs : List CoverageRecord}
    (h : intersect_grid_orbit_single_utm_zone api group_gdf orbit_gdf
      utm_zone utm_north fdf = Except.ok recs) :
    fdf = none ∧ ∃ clipped local_grid reproj joined,
      clipToBbox api (zoneBbox api group_gdf)
        (orbit_gdf.filter
          (fun r => api.intersects r.geometry (zoneBbox api group_gdf))) =
        Except.ok clipped ∧
      reprojectGridRows api (Epsg.str (get_utm_epsg utm_zone utm_north))
        group_gdf = Except.ok local_grid ∧
      reprojectOrbitRows api (Epsg.str (get_utm_epsg utm_zone utm_north))
        clipped = Except.ok reproj ∧
      intersectPairs api
        (sjoinIntersects api local_grid (buildSwaths api reproj)) =
        Except.ok joined ∧
      reprojectRecords api (Epsg.num 4326) joined = Except.ok recs := by
  unfold intersect_grid_orbit_single_utm_zone at h
  simp only [] at h
  split at h
  · simp at h
  · rename_i clipped hclip
    split at h
    · simp at h
    · rename_i local_grid hgrid
      split at h
      · simp at h
      · rename_i reproj horb
        split at h
        · simp at h
        · rename_i joined hpairs
          split at h
          · simp at h
          · exact ⟨rfl, clipped, local_grid, reproj, joined,
              hclip, hgrid, horb, hpairs, h⟩

/-- With no filter supplied, the only exception
`intersect_grid_orbit_single_utm_zone` can raise is a `GEOSException`:
every fallible step is a geometry-engine call. -/
theorem singleZone_none_error {api : GeometryApi} {group_gdf : List GridRow}
    {orbit_gdf : List OrbitRow} {utm_zone : ℕ} {utm_north : Bool} {e : PyErr}
    (h : intersect_grid_orbit_single_utm_zone api group_gdf orbit_gdf
      utm_zone utm_north none = Except.error e) :
    e = PyErr.geos := by
  unfold intersect_grid_orbit_single_utm_zone at h
  simp only [] at h
  split at h
  · rename_i e0 heq
    injection h with h
    subst h
    obtain ⟨x, _, hx⟩ := mapE_error_elim heq
    exact liftGeos_map_error hx
  · rename_i clipped hclip
    split at h
    · rename_i e0 heq
      injection h with h
      subst h
      obtain ⟨x, _, hx⟩ := mapE_error_elim heq
      exact liftGeos_map_error hx
    · rename_i local_grid hgrid
      split at h
      · rename_i e0 heq
        injection h with h
        subst h
        obtain ⟨x, _, hx⟩ := mapE_error_elim heq
        exact liftGeos_map_error hx
      · rename_i reproj horb
        split at h
        · rename_i e0 heq
          injection h with h
          subst h
          obtain ⟨x, _, hx⟩ := mapE_error_elim heq
          exact liftGeos_map_error hx
        · rename_i joined hpairs
          obtain ⟨x, _, hx⟩ := mapE_error_elim h
          exact liftGeos_map_error hx

/-- Every record of a successful single-zone run carries the
`relative_orbit` of some ground-track of the input orbit table whose
geometry intersects the zone's bounding box. -/
theorem singleZone_ok_orbit_from {api : GeometryApi} {group_gdf : List GridRow}
    {orbit_gdf : List OrbitRow} {utm_zone : ℕ} {utm_north : Bool}
    {fdf : Option (List (String × ℕ))} {recs : List CoverageRecord}
    (h : intersect_grid_orbit_single_utm_zone api group_gdf orbit_gdf
      utm_zone utm_north fdf = Except.ok recs) :
    ∀ c ∈ recs, ∃ r ∈ orbit_gdf, c.relative_orbit = r.relative_orbit ∧
      api.intersects r.geometry (zoneBbox api group_gdf) = true := by
  intro c hc
  obtain ⟨-, clipped, local_grid, reproj, joined, hclip, hgrid, horb, hpairs, hfinal⟩ :=
    singleZone_ok_elim h
  obtain ⟨c0, hc0, hstep⟩ := mapE_ok_mem hfinal hc
  obtain ⟨g, -, hcg⟩ := liftGeos_map_ok hstep
  have horbit0 : c.relative_orbit = c0.relative_orbit := by subst hcg; rfl
  obtain ⟨p, hp, hstep2⟩ := mapE_ok_mem hpairs hc0
  obtain ⟨g2, -, hcg2⟩ := liftGeos_map_ok hstep2
  have horbit1 : c0.relative_orbit = p.2.relative_orbit := by subst hcg2; rfl
  obtain ⟨-, hswath, -⟩ := sjoinIntersects_mem hp
  obtain ⟨r2, hr2, hsw⟩ := buildSwaths_mem hswath
  have horbit2 : p.2.relative_orbit = r2.relative_orbit := by rw [hsw]
  obtain ⟨r1, hr1, hstep3⟩ := mapE_ok_mem horb hr2
  obtain ⟨g3, -, hr2g⟩ := liftGeos_map_ok hstep3
  have horbit3 : r2.relative_orbit = r1.relative_orbit := by subst hr2g; rfl
  obtain ⟨r0, hr0, hstep4⟩ := mapE_ok_mem hclip hr1
  obtain ⟨g4, -, hr1g⟩ := liftGeos_map_ok hstep4
  have horbit4 : r1.relative_orbit = r0.relative_orbit := by subst hr1g; rfl
  rw [List.mem_filter] at hr0
  exact ⟨r0, hr0.1, by rw [horbit0, horbit1, horbit2, horbit3, horbit4], hr0.2⟩

/-- Every record of a successful single-zone run carries the `utm_zone` and
`utm_north` of some tile row of the zone's group. -/
theorem singleZone_ok_zone_from {api : GeometryApi} {group_gdf : List GridRow}
    {orbit_gdf : List OrbitRow} {utm_zone : ℕ} {utm_north : Bool}
    {fdf : Option (List (String × ℕ))} {recs : List CoverageRecord}
    (h : intersect_grid_orbit_single_utm_zone api group_gdf orbit_gdf
      utm_zone utm_north fdf = Except.ok recs) :
    ∀ c ∈ recs, ∃ t ∈ group_gdf,
      c.utm_zone = t.utm_zone ∧ c.utm_north = t.utm_north := by
  intro c hc
  obtain ⟨-, clipped, local_grid, reproj, joined, hclip, hgrid, horb, hpairs, hfinal⟩ :=
    singleZone_ok_elim h
  obtain ⟨c0, hc0, hstep⟩ := mapE_ok_mem hfinal hc
  obtain ⟨g, -, hcg⟩ := liftGeos_map_ok hstep
  have hz0 : c.utm_zone = c0.utm_zone ∧ c.utm_north = c0.utm_north := by
    subst hcg; exact ⟨rfl, rfl⟩
  obtain ⟨p, hp, hstep2⟩ := mapE_ok_mem hpairs hc0
  obtain ⟨g2, -, hcg2⟩ := liftGeos_map_ok hstep2
  have hz1 : c0.utm_zone = p.1.utm_zone ∧ c0.utm_north = p.1.utm_north := by
    subst hcg2; exact ⟨rfl, rfl⟩
  obtain ⟨htile, -, -⟩ := sjoinIntersects_mem hp
  obtain ⟨t0, ht0, hstep3⟩ := mapE_ok_mem hgrid htile
  obtain ⟨g3, -, htg⟩ := liftGeos_map_ok hstep3
  have hz2 : p.1.utm_zone = t0.utm_zone ∧ p.1.utm_north = t0.utm_north := by
    constructor <;> rw [htg]
  exact ⟨t0, ht0, by rw [hz0.1, hz1.1, hz2.1], by rw [hz0.2, hz1.2, hz2.2]⟩

/-! ## Lemmas about the per-zone loop of `intersect_grid_orbits` -/

/-- Every zone result table of a run comes from a successful single-zone
call on one of the groups, and never from a group with zone 1 or 60. -/
theorem runZones_results_mem {api : GeometryApi} {orbit_gdf : List OrbitRow}
    {fdf : Option (List (String × ℕ))} :
    ∀ {groups : List ((ℕ × Bool) × List GridRow)} {zrecs : List CoverageRecord},
      zrecs ∈ (runZones api orbit_gdf fdf groups).results →
      ∃ kg ∈ groups, ¬(kg.1.1 = 1 ∨ kg.1.1 = 60) ∧
        intersect_grid_orbit_single_utm_zone api kg.2 orbit_gdf kg.1.1 kg.1.2
          fdf = Except.ok zrecs := by
  intro groups
  induction groups with
  | nil => intro zrecs h; simp [runZones] at h
  | cons kg rest ih =>
    intro zrecs h
    obtain ⟨k, g⟩ := kg
    simp only [runZones] at h
    split at h
    · obtain ⟨kg', hkg', hrest⟩ := ih h
      exact ⟨kg', List.mem_cons_of_mem _ hkg', hrest⟩
    · rename_i hk
      split at h
      · rename_i recs hz
        rcases List.mem_cons.mp h with rfl | h'
        · exact ⟨(k, g), List.mem_cons_self _ _, hk, hz⟩
        · obtain ⟨kg', hkg', hrest⟩ := ih h'
          exact ⟨kg', List.mem_cons_of_mem _ hkg', hrest⟩
      · obtain ⟨kg', hkg', hrest⟩ := ih h
        exact ⟨kg', List.mem_cons_of_mem _ hkg', hrest⟩
      · simp at h

/-- Full characterization of the loop when no filter is supplied: each
group with zone 1 or 60 contributes one diagnostic message and no result; a
group whose single-zone call raises a `GEOSException` contributes nothing at
all — in particular no message; every other group contributes its result
table; and the run always completes (`err = none`). -/
theorem runZones_none_spec (api : GeometryApi) (orbit_gdf : List OrbitRow) :
    ∀ groups : List ((ℕ × Bool) × List GridRow),
      runZones api orbit_gdf none groups =
        { results := groups.filterMap (fun kg =>
            if kg.1.1 = 1 ∨ kg.1.1 = 60 then none
            else (intersect_grid_orbit_single_utm_zone api kg.2 orbit_gdf
              kg.1.1 kg.1.2 none).toOption),
          messages := (groups.filter
            (fun kg => decide (kg.1.1 = 1 ∨ kg.1.1 = 60))).map
            (fun _ => datelineMsg),
          err := none } := by
  intro groups
  induction groups with
  | nil => rfl
  | cons kg rest ih =>
    obtain ⟨k, g⟩ := kg
    simp only [runZones]
    by_cases hk : k.1 = 1 ∨ k.1 = 60
    · rw [if_pos hk, ih]
      simp [List.filterMap_cons, List.filter_cons, hk]
    · rw [if_neg hk]
      cases hz : intersect_grid_orbit_single_utm_zone api g orbit_gdf k.1 k.2 none with
      | ok recs =>
        rw [ih]
        simp [List.filterMap_cons, List.filter_cons, hk, hz, Except.toOption]
      | error e =>
        have he := singleZone_none_error hz
        subst he
        rw [ih]
        simp [List.filterMap_cons, List.filter_cons, hk, hz, Except.toOption]

/-- Rows of a group produced by `groupby` carry the group's key. -/
theorem groupby_row_key {rows : List GridRow} {kg : (ℕ × Bool) × List GridRow}
    (hkg : kg ∈ groupby rows) : ∀ r ∈ kg.2, gridKey r = kg.1 := by
  intro r hr
  simp only [groupby, List.mem_map] at hkg
  obtain ⟨k, hk, rfl⟩ := hkg
  simp only [List.mem_filter] at hr
  exact of_decide_eq_true hr.2

/-- Unfolding `intersect_grid_orbits` on successfully loaded inputs with no
filter supplied. -/
theorem intersect_grid_orbits_none_eq {api : GeometryApi}
    {gfs : List GridFeature} {ofs : List OrbitFeature}
    {gg : List GridRow} {og : List OrbitRow}
    (hg : load_grid gfs = Except.ok gg) (ho : load_orbit_kml ofs = Except.ok og) :
    intersect_grid_orbits api gfs ofs none = runZones api og none (groupby gg) := by
  unfold intersect_grid_orbits
  rw [hg, ho]

/-- Every zone result table of any run (whatever the filter argument) comes
from a successful single-zone call on a group of a `groupby` of grid rows. -/
theorem intersect_grid_orbits_results_mem {api : GeometryApi}
    {gfs : List GridFeature} {ofs : List OrbitFeature}
    {fo : Option (List (String × List ℕ))} {zrecs : List CoverageRecord}
    (h : zrecs ∈ (intersect_grid_orbits api gfs ofs fo).results) :
    ∃ (rows : List GridRow) (og : List OrbitRow)
      (fdf : Option (List (String × ℕ))) (kg : (ℕ × Bool) × List GridRow),
      kg ∈ groupby rows ∧ ¬(kg.1.1 = 1 ∨ kg.1.1 = 60) ∧
      intersect_grid_orbit_single_utm_zone api kg.2 og kg.1.1 kg.1.2 fdf =
        Except.ok zrecs := by
  unfold intersect_grid_orbits at h
  simp only [] at h
  split at h
  · simp at h
  · split at h
    · simp at h
    · rename_i og ho
      split at h
      · rename_i fos
        split at h
        · obtain ⟨kg, hkg, hne, hok⟩ := runZones_results_mem h
          exact ⟨_, og, none, kg, hkg, hne, hok⟩
        · obtain ⟨kg, hkg, hne, hok⟩ := runZones_results_mem h
          exact ⟨_, og, _, kg, hkg, hne, hok⟩
      · obtain ⟨kg, hkg, hne, hok⟩ := runZones_results_mem h
        exact ⟨_, og, none, kg, hkg, hne, hok⟩

/-! ## Claim theorems for the intersection pipeline -/

/-- C1 (amended): any geometry-engine fault
(`pygeos.GEOSException`) during the processing of one UTM-zone group makes
the run skip that zone's result while still processing the remaining zones
and completing normally (`err = none`) — but the skipped zone is NOT
reported: the `except: pass` swallows it, so the printed messages are
exactly the zone-1/60 notices, with no trace of zones dropped by a
geometry-engine fault. -/
theorem run_skips_faulted_zone_silently {api : GeometryApi}
    {gfs : List GridFeature} {ofs : List OrbitFeature}
    {gg : List GridRow} {og : List OrbitRow}
    (hg : load_grid gfs = Except.ok gg)
    (ho : load_orbit_kml ofs = Except.ok og) :
    intersect_grid_orbits api gfs ofs none =
      { results := (groupby gg).filterMap (fun kg =>
          if kg.1.1 = 1 ∨ kg.1.1 = 60 then none
          else (intersect_grid_orbit_single_utm_zone api kg.2 og kg.1.1 kg.1.2
            none).toOption),
        messages := ((groupby gg).filter
          (fun kg => decide (kg.1.1 = 1 ∨ kg.1.1 = 60))).map
          (fun _ => datelineMsg),
        err := none } :=
  (intersect_grid_orbits_none_eq hg ho).trans (runZones_none_spec api og (groupby gg))

/-- C1 counterexample to the claim as stated: a run in which the single
UTM-zone group (zone 33) suffers a `GEOSException` (the reprojection
faults), so the zone is skipped — yet the run output discloses nothing: no
result, no message, no error.  The first conjunct shows the zone's
processing did fault with a `GEOSException`; the second shows the full run
reports nothing about it. -/
theorem geos_fault_not_reported_cex :
    intersect_grid_orbit_single_utm_zone
      { total_bounds := fun _ => ⟨0, 0, 0, 0⟩,
        box := fun _ => Geometry.basic (BasicGeom.point ⟨0, 0, none⟩),
        intersects := fun _ _ => true,
        intersection := fun g _ => Except.ok g,
        buffer := fun g _ _ => g,
        to_crs := fun _ _ => Except.error GEOSException.fault }
      [{ tile_id := "33UUU",
         geometry := Geometry.basic (BasicGeom.multiPolygon
           [⟨[⟨0, 0, none⟩, ⟨1, 0, none⟩, ⟨1, 1, none⟩, ⟨0, 0, none⟩], []⟩]),
         utm_zone := 33, utm_north := true }]
      [{ relative_orbit := 5,
         geometry := Geometry.basic (BasicGeom.lineString [⟨0, 0, none⟩, ⟨1, 1, none⟩]) }]
      33 true none = Except.error PyErr.geos
    ∧ intersect_grid_orbits
      { total_bounds := fun _ => ⟨0, 0, 0, 0⟩,
        box := fun _ => Geometry.basic (BasicGeom.point ⟨0, 0, none⟩),
        intersects := fun _ _ => true,
        intersection := fun g _ => Except.ok g,
        buffer := fun g _ _ => g,
        to_crs := fun _ _ => Except.error GEOSException.fault }
      [{ name := "33UUU",
         geometry := Geometry.collection
           [BasicGeom.polygon ⟨[⟨0, 0, some 1⟩, ⟨1, 0, some 1⟩, ⟨1, 1, some 1⟩, ⟨0, 0, some 1⟩], []⟩,
            BasicGeom.point ⟨2, 2, some 3⟩] }]
      [{ relative_orbit := "5",
         geometry := Geometry.basic (BasicGeom.lineString [⟨0, 0, some 7⟩, ⟨1, 1, some 7⟩]) }]
      none =
      { results := [], messages := [], err := none } :=
  ⟨rfl, by decide⟩

/-- C2 (code bug): supplying a non-empty existence filter makes the run
abort with a `ValueError` before producing anything: the guard
`if filter_orbits_df:` evaluates the truth value of a pandas DataFrame,
which raises unconditionally, and `ValueError` is not caught by the
`except pygeos.GEOSException` handler.  The intended inner join is dead
code.  Here: one zone-33 tile with filter `{"33UUU": [22, 65]}` and a
geometry engine that never faults. -/
theorem filter_truthiness_raises_valueError :
    intersect_grid_orbits
      { total_bounds := fun _ => ⟨0, 0, 0, 0⟩,
        box := fun _ => Geometry.basic (BasicGeom.point ⟨0, 0, none⟩),
        intersects := fun _ _ => true,
        intersection := fun g _ => Except.ok g,
        buffer := fun g _ _ => g,
        to_crs := fun _ g => Except.ok g }
      [{ name := "33UUU",
         geometry := Geometry.collection
           [BasicGeom.polygon ⟨[⟨0, 0, some 1⟩, ⟨1, 0, some 1⟩, ⟨1, 1, some 1⟩, ⟨0, 0, some 1⟩], []⟩,
            BasicGeom.point ⟨2, 2, some 3⟩] }]
      [{ relative_orbit := "5",
         geometry := Geometry.basic (BasicGeom.lineString [⟨0, 0, some 7⟩, ⟨1, 1, some 7⟩]) }]
      (some [("33UUU", [22, 65])]) =
      { results := [], messages := [], err := some PyErr.valueError } := by
  decide

/-- C3: tile groups with zone number 1 or 60 are excluded: no output record
of any run carries `utm_zone` 1 or 60, and (for a run without the crashing
filter path) the printed diagnostics are exactly one notice per skipped
zone-1/60 group. -/
theorem zones_1_60_excluded_and_reported {api : GeometryApi}
    {gfs : List GridFeature} {ofs : List OrbitFeature}
    (fo : Option (List (String × List ℕ)))
    {gg : List GridRow} {og : List OrbitRow}
    (hg : load_grid gfs = Except.ok gg)
    (ho : load_orbit_kml ofs = Except.ok og) :
    (∀ zrecs ∈ (intersect_grid_orbits api gfs ofs fo).results, ∀ c ∈ zrecs,
      c.utm_zone ≠ 1 ∧ c.utm_zone ≠ 60) ∧
    (intersect_grid_orbits api gfs ofs none).messages =
      ((groupby gg).filter (fun kg => decide (kg.1.1 = 1 ∨ kg.1.1 = 60))).map
        (fun _ => datelineMsg) := by
  constructor
  · intro zrecs hz c hc
    obtain ⟨rows, og', fdf, kg, hkg, hne, hok⟩ := intersect_grid_orbits_results_mem hz
    obtain ⟨t, ht, hzeq, -⟩ := singleZone_ok_zone_from hok c hc
    have hkey : t.utm_zone = kg.1.1 := congrArg Prod.fst (groupby_row_key hkg t ht)
    have hcz : c.utm_zone = kg.1.1 := hzeq.trans hkey
    exact ⟨fun h1 => hne (Or.inl (hcz.symm.trans h1)),
           fun h60 => hne (Or.inr (hcz.symm.trans h60))⟩
  · rw [intersect_grid_orbits_none_eq hg ho, runZones_none_spec]

/-- C4: the zone's working bounding box is `box(*group_gdf.total_bounds)` —
the actual total extent of the zone's tile group — and any orbit number all
of whose ground-tracks fail the `intersects(bbox)` pre-filter produces zero
output records in that zone. -/
theorem bbox_prefilter_excludes_nonintersecting_orbits {api : GeometryApi}
    {group_gdf : List GridRow} {orbit_gdf : List OrbitRow}
    {utm_zone : ℕ} {utm_north : Bool} {recs : List CoverageRecord} {o : ℕ}
    (hmiss : ∀ r ∈ orbit_gdf, r.relative_orbit = o →
      api.intersects r.geometry (zoneBbox api group_gdf) = false)
    (h : intersect_grid_orbit_single_utm_zone api group_gdf orbit_gdf
      utm_zone utm_north none = Except.ok recs) :
    zoneBbox api group_gdf =
      api.box (api.total_bounds (group_gdf.map GridRow.geometry)) ∧
    ∀ c ∈ recs, c.relative_orbit ≠ o := by
  refine ⟨rfl, ?_⟩
  intro c hc hco
  obtain ⟨r, hr, heq, hint⟩ := singleZone_ok_orbit_from h c hc
  have hfalse := hmiss r hr (heq.symm.trans hco |>.symm ▸ rfl)
  rw [hfalse] at hint
  exact Bool.noConfusion hint

/-- C5: every swath is built by buffering the reprojected track geometry by
exactly the fixed constant 145 000 local length units with the square cap
style (shapely `cap_style=3`), not the round one; `buildSwaths` takes no
per-orbit or per-zone width, so the constant is the same for every orbit
and every zone. -/
theorem swath_buffer_constant_square_cap (api : GeometryApi)
    (orbits : List OrbitRow) :
    buildSwaths api orbits = orbits.map (fun r =>
      { r with geometry := api.buffer r.geometry swathHalfWidth capStyleSquare }) ∧
    swathHalfWidth = 145000 ∧ capStyleSquare = 3 ∧
    capStyleSquare ≠ capStyleRound :=
  ⟨rfl, rfl, rfl, by decide⟩

/-- Witness for `run_skips_faulted_zone_silently`: a concrete run with two
zones (7 south and 33 north) where reprojection to zone 33 faults with a
`GEOSException` and zone 7 succeeds. -/
theorem run_skips_faulted_zone_silently_witness :
    load_grid
      [{ name := "07MAA",
         geometry := Geometry.collection
           [BasicGeom.polygon ⟨[⟨0, 0, some 1⟩, ⟨1, 0, some 1⟩], []⟩,
            BasicGeom.point ⟨2, 2, some 3⟩] },
       { name := "33UUU",
         geometry := Geometry.collection
           [BasicGeom.polygon ⟨[⟨4, 4, some 1⟩, ⟨5, 4, some 1⟩], []⟩,
            BasicGeom.point ⟨6, 6, some 3⟩] }] =
      Except.ok
        [{ tile_id := "07MAA",
           geometry := Geometry.basic (BasicGeom.multiPolygon
             [⟨[⟨0, 0, none⟩, ⟨1, 0, none⟩], []⟩]),
           utm_zone := 7, utm_north := false },
         { tile_id := "33UUU",
           geometry := Geometry.basic (BasicGeom.multiPolygon
             [⟨[⟨4, 4, none⟩, ⟨5, 4, none⟩], []⟩]),
           utm_zone := 33, utm_north := true }] ∧
    load_orbit_kml
      [{ relative_orbit := "5",
         geometry := Geometry.basic (BasicGeom.lineString [⟨0, 0, some 7⟩, ⟨1, 1, some 7⟩]) }] =
      Except.ok
        [{ relative_orbit := 5,
           geometry := Geometry.basic (BasicGeom.lineString [⟨0, 0, none⟩, ⟨1, 1, none⟩]) }] ∧
    intersect_grid_orbits
      { total_bounds := fun _ => ⟨0, 0, 0, 0⟩,
        box := fun _ => Geometry.basic (BasicGeom.point ⟨0, 0, none⟩),
        intersects := fun _ _ => true,
        intersection := fun g _ => Except.ok g,
        buffer := fun g _ _ => g,
        to_crs := fun e g =>
          match e with
          | Epsg.str s => if s = "32633" then Except.error GEOSException.fault else Except.ok g
          | Epsg.num _ => Except.ok g }
      [{ name := "07MAA",
         geometry := Geometry.collection
           [BasicGeom.polygon ⟨[⟨0, 0, some 1⟩, ⟨1, 0, some 1⟩], []⟩,
            BasicGeom.point ⟨2, 2, some 3⟩] },
       { name := "33UUU",
         geometry := Geometry.collection
           [BasicGeom.polygon ⟨[⟨4, 4, some 1⟩, ⟨5, 4, some 1⟩], []⟩,
            BasicGeom.point ⟨6, 6, some 3⟩] }]
      [{ relative_orbit := "5",
         geometry := Geometry.basic (BasicGeom.lineString [⟨0, 0, some 7⟩, ⟨1, 1, some 7⟩]) }]
      none =
      { results := (groupby
          [{ tile_id := "07MAA",
             geometry := Geometry.basic (BasicGeom.multiPolygon
               [⟨[⟨0, 0, none⟩, ⟨1, 0, none⟩], []⟩]),
             utm_zone := 7, utm_north := false },
           { tile_id := "33UUU",
             geometry := Geometry.basic (BasicGeom.multiPolygon
               [⟨[⟨4, 4, none⟩, ⟨5, 4, none⟩], []⟩]),
             utm_zone := 33, utm_north := true }]).filterMap (fun kg =>
          if kg.1.1 = 1 ∨ kg.1.1 = 60 then none
          else (intersect_grid_orbit_single_utm_zone
            { total_bounds := fun _ => ⟨0, 0, 0, 0⟩,
              box := fun _ => Geometry.basic (BasicGeom.point ⟨0, 0, none⟩),
              intersects := fun _ _ => true,
              intersection := fun g _ => Except.ok g,
              buffer := fun g _ _ => g,
              to_crs := fun e g =>
                match e with
                | Epsg.str s => if s = "32633" then Except.error GEOSException.fault else Except.ok g
                | Epsg.num _ => Except.ok g }
            kg.2
            [{ relative_orbit := 5,
               geometry := Geometry.basic (BasicGeom.lineString [⟨0, 0, none⟩, ⟨1, 1, none⟩]) }]
            kg.1.1 kg.1.2 none).toOption),
        messages := ((groupby
          [{ tile_id := "07MAA",
             geometry := Geometry.basic (BasicGeom.multiPolygon
               [⟨[⟨0, 0, none⟩, ⟨1, 0, none⟩], []⟩]),
             utm_zone := 7, utm_north := false },
           { tile_id := "33UUU",
             geometry := Geometry.basic (BasicGeom.multiPolygon
               [⟨[⟨4, 4, none⟩, ⟨5, 4, none⟩], []⟩]),
             utm_zone := 33, utm_north := true }]).filter
          (fun kg => decide (kg.1.1 = 1 ∨ kg.1.1 = 60))).map (fun _ => datelineMsg),
        err := none } :=
  ⟨rfl, rfl, run_skips_faulted_zone_silently rfl rfl⟩

/-- Witness for `zones_1_60_excluded_and_reported`: a run containing a
zone-1 group and a zone-33 group. -/
theorem zones_1_60_excluded_and_reported_witness :
    load_grid
      [{ name := "01CAA",
         geometry := Geometry.collection
           [BasicGeom.polygon ⟨[⟨0, 0, some 1⟩, ⟨1, 0, some 1⟩], []⟩,
            BasicGeom.point ⟨2, 2, some 3⟩] },
       { name := "33UUU",
         geometry := Geometry.collection
           [BasicGeom.polygon ⟨[⟨4, 4, some 1⟩, ⟨5, 4, some 1⟩], []⟩,
            BasicGeom.point ⟨6, 6, some 3⟩] }] =
      Except.ok
        [{ tile_id := "01CAA",
           geometry := Geometry.basic (BasicGeom.multiPolygon
             [⟨[⟨0, 0, none⟩, ⟨1, 0, none⟩], []⟩]),
           utm_zone := 1, utm_north := false },
         { tile_id := "33UUU",
           geometry := Geometry.basic (BasicGeom.multiPolygon
             [⟨[⟨4, 4, none⟩, ⟨5, 4, none⟩], []⟩]),
           utm_zone := 33, utm_north := true }] ∧
    load_orbit_kml
      [{ relative_orbit := "5",
         geometry := Geometry.basic (BasicGeom.lineString [⟨0, 0, some 7⟩, ⟨1, 1, some 7⟩]) }] =
      Except.ok
        [{ relative_orbit := 5,
           geometry := Geometry.basic (BasicGeom.lineString [⟨0, 0, none⟩, ⟨1, 1, none⟩]) }] ∧
    ((∀ zrecs ∈ (intersect_grid_orbits
        { total_bounds := fun _ => ⟨0, 0, 0, 0⟩,
          box := fun _ => Geometry.basic (BasicGeom.point ⟨0, 0, none⟩),
          intersects := fun _ _ => true,
          intersection := fun g _ => Except.ok g,
          buffer := fun g _ _ => g,
          to_crs := fun _ g => Except.ok g }
        [{ name := "01CAA",
           geometry := Geometry.collection
             [BasicGeom.polygon ⟨[⟨0, 0, some 1⟩, ⟨1, 0, some 1⟩], []⟩,
              BasicGeom.point ⟨2, 2, some 3⟩] },
         { name := "33UUU",
           geometry := Geometry.collection
             [BasicGeom.polygon ⟨[⟨4, 4, some 1⟩, ⟨5, 4, some 1⟩], []⟩,
              BasicGeom.point ⟨6, 6, some 3⟩] }]
        [{ relative_orbit := "5",
           geometry := Geometry.basic (BasicGeom.lineString [⟨0, 0, some 7⟩, ⟨1, 1, some 7⟩]) }]
        none).results, ∀ c ∈ zrecs, c.utm_zone ≠ 1 ∧ c.utm_zone ≠ 60) ∧
      (intersect_grid_orbits
        { total_bounds := fun _ => ⟨0, 0, 0, 0⟩,
          box := fun _ => Geometry.basic (BasicGeom.point ⟨0, 0, none⟩),
          intersects := fun _ _ => true,
          intersection := fun g _ => Except.ok g,
          buffer := fun g _ _ => g,
          to_crs := fun _ g => Except.ok g }
        [{ name := "01CAA",
           geometry := Geometry.collection
             [BasicGeom.polygon ⟨[⟨0, 0, some 1⟩, ⟨1, 0, some 1⟩], []⟩,
              BasicGeom.point ⟨2, 2, some 3⟩] },
         { name := "33UUU",
           geometry := Geometry.collection
             [BasicGeom.polygon ⟨[⟨4, 4, some 1⟩, ⟨5, 4, some 1⟩], []⟩,
              BasicGeom.point ⟨6, 6, some 3⟩] }]
        [{ relative_orbit := "5",
           geometry := Geometry.basic (BasicGeom.lineString [⟨0, 0, some 7⟩, ⟨1, 1, some 7⟩]) }]
        none).messages =
        ((groupby
          [{ tile_id := "01CAA",
             geometry := Geometry.basic (BasicGeom.multiPolygon
               [⟨[⟨0, 0, none⟩, ⟨1, 0, none⟩], []⟩]),
             utm_zone := 1, utm_north := false },
           { tile_id := "33UUU",
             geometry := Geometry.basic (BasicGeom.multiPolygon
               [⟨[⟨4, 4, none⟩, ⟨5, 4, none⟩], []⟩]),
             utm_zone := 33, utm_north := true }]).filter
          (fun kg => decide (kg.1.1 = 1 ∨ kg.1.1 = 60))).map (fun _ => datelineMsg)) :=
  ⟨rfl, rfl, zones_1_60_excluded_and_reported none rfl rfl⟩

/-- Witness for `bbox_prefilter_excludes_nonintersecting_orbits`: a concrete
zone-33 group and one orbit (number 5) whose track does not intersect the
zone's bounding box; the zone's single-zone result is empty. -/
theorem bbox_prefilter_excludes_nonintersecting_orbits_witness :
    (∀ r ∈ [({ relative_orbit := 5,
               geometry := Geometry.basic (BasicGeom.lineString [⟨9, 9, none⟩, ⟨8, 8, none⟩]) } : OrbitRow)],
      r.relative_orbit = 5 →
      GeometryApi.intersects
        ({ total_bounds := fun _ => ⟨0, 0, 0, 0⟩,
           box := fun _ => Geometry.basic (BasicGeom.point ⟨0, 0, none⟩),
           intersects := fun _ _ => false,
           intersection := fun g _ => Except.ok g,
           buffer := fun g _ _ => g,
           to_crs := fun _ g => Except.ok g })
        r.geometry
        (zoneBbox
          { total_bounds := fun _ => ⟨0, 0, 0, 0⟩,
            box := fun _ => Geometry.basic (BasicGeom.point ⟨0, 0, none⟩),
            intersects := fun _ _ => false,
            intersection := fun g _ => Except.ok g,
            buffer := fun g _ _ => g,
            to_crs := fun _ g => Except.ok g }
          [{ tile_id := "33UUU",
             geometry := Geometry.basic (BasicGeom.multiPolygon
               [⟨[⟨4, 4, none⟩, ⟨5, 4, none⟩], []⟩]),
             utm_zone := 33, utm_north := true }]) = false) ∧
    intersect_grid_orbit_single_utm_zone
      { total_bounds := fun _ => ⟨0, 0, 0, 0⟩,
        box := fun _ => Geometry.basic (BasicGeom.point ⟨0, 0, none⟩),
        intersects := fun _ _ => false,
        intersection := fun g _ => Except.ok g,
        buffer := fun g _ _ => g,
        to_crs := fun _ g => Except.ok g }
      [{ tile_id := "33UUU",
         geometry := Geometry.basic (BasicGeom.multiPolygon
           [⟨[⟨4, 4, none⟩, ⟨5, 4, none⟩], []⟩]),
         utm_zone := 33, utm_north := true }]
      [{ relative_orbit := 5,
         geometry := Geometry.basic (BasicGeom.lineString [⟨9, 9, none⟩, ⟨8, 8, none⟩]) }]
      33 true none = Except.ok [] ∧
    (zoneBbox
      { total_bounds := fun _ => ⟨0, 0, 0, 0⟩,
        box := fun _ => Geometry.basic (BasicGeom.point ⟨0, 0, none⟩),
        intersects := fun _ _ => false,
        intersection := fun g _ => Except.ok g,
        buffer := fun g _ _ => g,
        to_crs := fun _ g => Except.ok g }
      [{ tile_id := "33UUU",
         geometry := Geometry.basic (BasicGeom.multiPolygon
           [⟨[⟨4, 4, none⟩, ⟨5, 4, none⟩], []⟩]),
         utm_zone := 33, utm_north := true }] =
      GeometryApi.box
        ({ total_bounds := fun _ => ⟨0, 0, 0, 0⟩,
           box := fun _ => Geometry.basic (BasicGeom.point ⟨0, 0, none⟩),
           intersects := fun _ _ => false,
           intersection := fun g _ => Except.ok g,
           buffer := fun g _ _ => g,
           to_crs := fun _ g => Except.ok g })
        (GeometryApi.total_bounds
        ({ total_bounds := fun _ => ⟨0, 0, 0, 0⟩,
           box := fun _ => Geometry.basic (BasicGeom.point ⟨0, 0, none⟩),
           intersects := fun _ _ => false,
           intersection := fun g _ => Except.ok g,
           buffer := fun g _ _ => g,
           to_crs := fun _ g => Except.ok g })
          (List.map GridRow.geometry
            [{ tile_id := "33UUU",
               geometry := Geometry.basic (BasicGeom.multiPolygon
                 [⟨[⟨4, 4, none⟩, ⟨5, 4, none⟩], []⟩]),
               utm_zone := 33, utm_north := true }])) ∧
      ∀ c ∈ ([] : List CoverageRecord), c.relative_orbit ≠ 5) := by
  have h2 : intersect_grid_orbit_single_utm_zone
      { total_bounds := fun _ => ⟨0, 0, 0, 0⟩,
        box := fun _ => Geometry.basic (BasicGeom.point ⟨0, 0, none⟩),
        intersects := fun _ _ => false,
        intersection := fun g _ => Except.ok g,
        buffer := fun g _ _ => g,
        to_crs := fun _ g => Except.ok g }
      [{ tile_id := "33UUU",
         geometry := Geometry.basic (BasicGeom.multiPolygon
           [⟨[⟨4, 4, none⟩, ⟨5, 4, none⟩], []⟩]),
         utm_zone := 33, utm_north := true }]
      [{ relative_orbit := 5,
         geometry := Geometry.basic (BasicGeom.lineString [⟨9, 9, none⟩, ⟨8, 8, none⟩]) }]
      33 true none = Except.ok [] := rfl
  exact ⟨by decide, h2,
    bbox_prefilter_excludes_nonintersecting_orbits (by decide) h2⟩

/-- Witness for `swath_buffer_constant_square_cap` at a concrete engine and
a concrete one-orbit table. -/
theorem swath_buffer_constant_square_cap_witness :
    buildSwaths
      { total_bounds := fun _ => ⟨0, 0, 0, 0⟩,
        box := fun _ => Geometry.basic (BasicGeom.point ⟨0, 0, none⟩),
        intersects := fun _ _ => true,
        intersection := fun g _ => Except.ok g,
        buffer := fun g _ _ => g,
        to_crs := fun _ g => Except.ok g }
      [{ relative_orbit := 5,
         geometry := Geometry.basic (BasicGeom.lineString [⟨0, 0, none⟩, ⟨1, 1, none⟩]) }] =
      List.map (fun r : OrbitRow =>
        { r with
          geometry :=
            GeometryApi.buffer
              ({ total_bounds := fun _ => ⟨0, 0, 0, 0⟩,
                 box := fun _ => Geometry.basic (BasicGeom.point ⟨0, 0, none⟩),
                 intersects := fun _ _ => true,
                 intersection := fun g _ => Except.ok g,
                 buffer := fun g _ _ => g,
                 to_crs := fun _ g => Except.ok g })
              r.geometry swathHalfWidth capStyleSquare })
        [{ relative_orbit := 5,
           geometry := Geometry.basic (BasicGeom.lineString [⟨0, 0, none⟩, ⟨1, 1, none⟩]) }] ∧
    swathHalfWidth = 145000 ∧ capStyleSquare = 3 ∧
    capStyleSquare ≠ capStyleRound :=
  swath_buffer_constant_square_cap
    { total_bounds := fun _ => ⟨0, 0, 0, 0⟩,
      box := fun _ => Geometry.basic (BasicGeom.point ⟨0, 0, none⟩),
      intersects := fun _ _ => true,
      intersection := fun g _ => Except.ok g,
      buffer := fun g _ _ => g,
      to_crs := fun _ g => Except.ok g }
    [{ relative_orbit := 5,
       geometry := Geometry.basic (BasicGeom.lineString [⟨0, 0, none⟩, ⟨1, 1, none⟩]) }]

/-! ## Claim theorems for `get_utm_epsg` -/

/-- C9: for every UTM zone 1–60, the zero-padded string concatenation of
`get_utm_epsg` parses to exactly `32600 + zone` (northern hemisphere) and
`32700 + zone` (southern hemisphere): the two hemispheres use distinct base
codes and the code is base + zone. -/
theorem get_utm_epsg_arith (utm_zone : ℕ) (h1 : 1 ≤ utm_zone)
    (h60 : utm_zone ≤ 60) :
    parseNatDigits (get_utm_epsg utm_zone true) = Except.ok (32600 + utm_zone) ∧
    parseNatDigits (get_utm_epsg utm_zone false) = Except.ok (32700 + utm_zone) := by
  have hall : ∀ z : ℕ, z < 61 → 1 ≤ z →
      parseNatDigits (get_utm_epsg z true) = Except.ok (32600 + z) ∧
      parseNatDigits (get_utm_epsg z false) = Except.ok (32700 + z) := by decide
  exact hall utm_zone (by omega) h1

/-- Witness for `get_utm_epsg_arith` at zone 33. -/
theorem get_utm_epsg_arith_witness :
    1 ≤ 33 ∧ 33 ≤ 60 ∧
    (parseNatDigits (get_utm_epsg 33 true) = Except.ok (32600 + 33) ∧
     parseNatDigits (get_utm_epsg 33 false) = Except.ok (32700 + 33)) :=
  ⟨by decide, by decide, get_utm_epsg_arith 33 (by decide) (by decide)⟩

/-! ## Claim theorems for `load_orbit_kml` -/

/-- If the images of `f` over a list are pairwise distinct, at most one
element maps to any given value. -/
theorem nodup_map_filter_length_le_one {α β : Type} [DecidableEq β]
    (f : α → β) :
    ∀ l : List α, (l.map f).Nodup → ∀ n : β,
      (l.filter (fun x => decide (f x = n))).length ≤ 1 := by
  intro l
  induction l with
  | nil => intro _ n; simp
  | cons x xs ih =>
    intro h n
    rw [List.map_cons, List.nodup_cons] at h
    obtain ⟨hx, hxs⟩ := h
    by_cases hfx : f x = n
    · rw [List.filter_cons_of_pos (by simp [hfx])]
      have hnil : xs.filter (fun y => decide (f y = n)) = [] := by
        rw [List.eq_nil_iff_forall_not_mem]
        intro a ha
        rw [List.mem_filter] at ha
        have hfa : f a = n := of_decide_eq_true ha.2
        exact hx (by rw [hfx, ← hfa]; exact List.mem_map_of_mem f ha.1)
      rw [hnil]
      simp
    · rw [List.filter_cons_of_neg (by simp [hfx])]
      exact ih hxs n

/-- C7 (amended): `load_orbit_kml` is a deterministic row-for-row
transformation — it parses each `Relative_Orbit` value and strips the Z
dimension, performing no duplicate rejection or collapsing whatsoever; so
the output has exactly one record per orbit number exactly when the parsed
source orbit numbers are pairwise distinct. -/
theorem load_orbit_kml_rowwise_no_dedup {rows : List OrbitFeature}
    {out : List OrbitRow} (h : load_orbit_kml rows = Except.ok out) :
    List.Forall₂ (fun (r : OrbitFeature) (o : OrbitRow) =>
      parseNatDigits r.relative_orbit = Except.ok o.relative_orbit ∧
      o.geometry = to_2d r.geometry) rows out ∧
    ((out.map OrbitRow.relative_orbit).Nodup → ∀ n : ℕ,
      (out.filter (fun o => decide (o.relative_orbit = n))).length ≤ 1) := by
  constructor
  · unfold load_orbit_kml at h
    split at h
    · exact absurd h (by simp)
    · rename_i orbits horbits
      injection h with h
      subst h
      have hf := mapE_forall₂ horbits
      clear horbits
      induction hf with
      | nil => exact List.Forall₂.nil
      | cons hR hrest ih =>
        exact List.Forall₂.cons ⟨hR, rfl⟩ ih
  · intro hnd n
    exact nodup_map_filter_length_le_one OrbitRow.relative_orbit out hnd n

/-- C7 counterexample to the claim as stated: two source features with the
same `Relative_Orbit` value "5" are BOTH emitted by `load_orbit_kml` — no
rejection, no collapsing — so the output has two ground-track records for
orbit number 5. -/
theorem duplicate_orbits_both_emitted_cex :
    load_orbit_kml
      [{ relative_orbit := "5",
         geometry := Geometry.basic (BasicGeom.point ⟨0, 0, some 1⟩) },
       { relative_orbit := "5",
         geometry := Geometry.basic (BasicGeom.point ⟨2, 2, some 1⟩) }] =
      Except.ok
        [{ relative_orbit := 5,
           geometry := Geometry.basic (BasicGeom.point ⟨0, 0, none⟩) },
         { relative_orbit := 5,
           geometry := Geometry.basic (BasicGeom.point ⟨2, 2, none⟩) }] ∧
    ((([{ relative_orbit := 5,
          geometry := Geometry.basic (BasicGeom.point ⟨0, 0, none⟩) },
         { relative_orbit := 5,
           geometry := Geometry.basic (BasicGeom.point ⟨2, 2, none⟩) }] :
         List OrbitRow).filter
        (fun o => decide (o.relative_orbit = 5))).length = 2) :=
  ⟨by decide, by decide⟩

/-- Witness for `load_orbit_kml_rowwise_no_dedup` on a two-row source with
distinct orbit numbers. -/
theorem load_orbit_kml_rowwise_no_dedup_witness :
    load_orbit_kml
      [{ relative_orbit := "5",
         geometry := Geometry.basic (BasicGeom.point ⟨0, 0, some 1⟩) },
       { relative_orbit := "7",
         geometry := Geometry.basic (BasicGeom.point ⟨2, 2, some 1⟩) }] =
      Except.ok
        [{ relative_orbit := 5,
           geometry := Geometry.basic (BasicGeom.point ⟨0, 0, none⟩) },
         { relative_orbit := 7,
           geometry := Geometry.basic (BasicGeom.point ⟨2, 2, none⟩) }] ∧
    (List.Forall₂ (fun (r : OrbitFeature) (o : OrbitRow) =>
        parseNatDigits r.relative_orbit = Except.ok o.relative_orbit ∧
        o.geometry = to_2d r.geometry)
      [{ relative_orbit := "5",
         geometry := Geometry.basic (BasicGeom.point ⟨0, 0, some 1⟩) },
       { relative_orbit := "7",
         geometry := Geometry.basic (BasicGeom.point ⟨2, 2, some 1⟩) }]
      [{ relative_orbit := 5,
         geometry := Geometry.basic (BasicGeom.point ⟨0, 0, none⟩) },
       { relative_orbit := 7,
         geometry := Geometry.basic (BasicGeom.point ⟨2, 2, none⟩) }] ∧
     ((([{ relative_orbit := 5,
           geometry := Geometry.basic (BasicGeom.point ⟨0, 0, none⟩) },
         { relative_orbit := 7,
           geometry := Geometry.basic (BasicGeom.point ⟨2, 2, none⟩) }] :
          List OrbitRow).map OrbitRow.relative_orbit).Nodup → ∀ n : ℕ,
        ((([{ relative_orbit := 5,
              geometry := Geometry.basic (BasicGeom.point ⟨0, 0, none⟩) },
            { relative_orbit := 7,
              geometry := Geometry.basic (BasicGeom.point ⟨2, 2, none⟩) }] :
            List OrbitRow).filter
          (fun o => decide (o.relative_orbit = n))).length ≤ 1))) :=
  ⟨by decide, load_orbit_kml_rowwise_no_dedup (by decide)⟩

/-! ## Claim theorems for `load_grid` -/

theorem coordTo2d_is2d (c : Coord) : coordIs2d (coordTo2d c) = true :=
  rfl

theorem polyTo2d_is2d (p : PolyData) : polyIs2d (polyTo2d p) = true := by
  simp only [polyTo2d, polyIs2d, Bool.and_eq_true, List.all_eq_true]
  refine ⟨fun c hc => ?_, fun h hh => ?_⟩
  · obtain ⟨c0, -, rfl⟩ := List.mem_map.mp hc
    rfl
  · obtain ⟨h0, -, rfl⟩ := List.mem_map.mp hh
    intro c hc
    obtain ⟨c0, -, rfl⟩ := List.mem_map.mp hc
    rfl

theorem basicTo2d_is2d (b : BasicGeom) : basicIs2d (basicTo2d b) = true := by
  cases b with
  | point c => rfl
  | lineString cs =>
    simp only [basicTo2d, basicIs2d, List.all_eq_true]
    intro c hc
    obtain ⟨c0, -, rfl⟩ := List.mem_map.mp hc
    rfl
  | polygon p => exact polyTo2d_is2d p
  | multiPolygon ps =>
    simp only [basicTo2d, basicIs2d, List.all_eq_true]
    intro p hp
    obtain ⟨p0, -, rfl⟩ := List.mem_map.mp hp
    exact polyTo2d_is2d p0

/-- `.geoms` of a geometry coerced to 2-D: the 2-D images of the original
members. -/
theorem geomsOf_to_2d (g : Geometry) :
    geomsOf (to_2d g) = (geomsOf g).map (fun gs => gs.map basicTo2d) := by
  cases g with
  | collection gs => rfl
  | basic b =>
    cases b with
    | point c => rfl
    | lineString cs => rfl
    | polygon p => rfl
    | multiPolygon ps =>
      simp only [to_2d, basicTo2d, geomsOf, Except.map, List.map_map]
      rfl

/-- A successful `MultiPolygon(...)` construction keeps exactly the
`Polygon` members' data, and requires every supplied member to be a
`Polygon`. -/
theorem mapE_polygonData_ok :
    ∀ {l : List BasicGeom} {ps : List PolyData},
      mapE polygonData l = Except.ok ps → ps = l.filterMap polyDataOf := by
  intro l
  induction l with
  | nil =>
    intro ps h
    simp only [mapE] at h
    injection h with h
    simp [h.symm]
  | cons b l ih =>
    intro ps h
    simp only [mapE] at h
    cases b with
    | polygon p =>
      simp only [polygonData] at h
      cases hrest : mapE polygonData l with
      | error e => rw [hrest] at h; exact absurd h (by simp)
      | ok ps0 =>
        rw [hrest] at h
        injection h with h
        subst h
        simp [List.filterMap_cons, polyDataOf, ih hrest]
    | point c => simp [polygonData] at h
    | lineString cs => simp [polygonData] at h
    | multiPolygon ps1 => simp [polygonData] at h

/-- The per-feature geometry normalization of `load_grid`: 2-D coercion
followed by `MultiPolygon` coercion.  On success the result is a 2-D
`MultiPolygon` holding exactly the data of the polygonal members of the
source geometry's member list (points and lines filtered out). -/
theorem coerceToMultiPolygon_to_2d_ok {g g2 : Geometry}
    (h : coerceToMultiPolygon (to_2d g) = Except.ok g2) :
    geomIs2d g2 = true ∧ ∃ gs, geomsOf g = Except.ok gs ∧
      g2 = Geometry.basic (BasicGeom.multiPolygon
        (((gs.map basicTo2d).filter isPolygonal).filterMap polyDataOf)) := by
  unfold coerceToMultiPolygon at h
  rw [geomsOf_to_2d] at h
  cases hgs : geomsOf g with
  | error e => rw [hgs] at h; exact absurd h (by simp [Except.map])
  | ok gs =>
    rw [hgs] at h
    simp only [Except.map] at h
    cases hps : mapE polygonData ((gs.map basicTo2d).filter isPolygonal) with
    | error e => rw [hps] at h; exact absurd h (by simp)
    | ok ps =>
      rw [hps] at h
      injection h with h
      have hps_eq := mapE_polygonData_ok hps
      subst h
      refine ⟨?_, gs, rfl, by rw [hps_eq]⟩
      simp only [geomIs2d, basicIs2d, List.all_eq_true]
      intro p hp
      rw [hps_eq] at hp
      obtain ⟨b, hb, hpb⟩ := List.mem_filterMap.mp hp
      have hb2 : b ∈ gs.map basicTo2d := (List.mem_filter.mp hb).1
      obtain ⟨b0, -, rfl⟩ := List.mem_map.mp hb2
      have h2d := basicTo2d_is2d b0
      cases hb0 : basicTo2d b0 with
      | polygon p0 =>
        rw [hb0] at hpb h2d
        simp only [polyDataOf] at hpb
        injection hpb with hpb
        subst hpb
        exact h2d
      | point c => rw [hb0] at hpb; simp [polyDataOf] at hpb
      | lineString cs => rw [hb0] at hpb; simp [polyDataOf] at hpb
      | multiPolygon ps1 => rw [hb0] at hpb; simp [polyDataOf] at hpb

/-- Row-wise description of `load_grid`. -/
theorem load_grid_forall₂ {rows : List GridFeature} {out : List GridRow}
    (h : load_grid rows = Except.ok out) :
    List.Forall₂ (fun (f : GridFeature) (t : GridRow) =>
      t.tile_id = f.name ∧
      coerceToMultiPolygon (to_2d f.geometry) = Except.ok t.geometry ∧
      parseUtmZone f.name = Except.ok t.utm_zone ∧
      t.utm_north = parseUtmNorth f.name) rows out := by
  unfold load_grid at h
  split at h
  · exact absurd h (by simp)
  · rename_i geoms hgeoms
    split at h
    · exact absurd h (by simp)
    · rename_i zones hzones
      injection h with h
      subst h
      have hf1 := mapE_forall₂ hgeoms
      have hf2 := mapE_forall₂ hzones
      clear hgeoms hzones
      induction hf1 generalizing zones with
      | nil =>
        cases hf2
        exact List.Forall₂.nil
      | cons hg1 hg2 ih =>
        cases hf2 with
        | cons hz1 hz2 =>
          exact List.Forall₂.cons ⟨rfl, hg1, hz1, rfl⟩ (ih _ hz2)

/-- C8: for every tile record produced by `load_grid`, the normalized
geometry is 2-D (the altitude coordinate is stripped from every vertex) and
is a `MultiPolygon` holding exactly the polygonal members of the source
feature's geometry collection, with point (and line) artifacts filtered
out. -/
theorem load_grid_geometry_normalization {rows : List GridFeature}
    {out : List GridRow} (h : load_grid rows = Except.ok out) :
    List.Forall₂ (fun (f : GridFeature) (t : GridRow) =>
      geomIs2d t.geometry = true ∧ ∃ gs, geomsOf f.geometry = Except.ok gs ∧
        t.geometry = Geometry.basic (BasicGeom.multiPolygon
          (((gs.map basicTo2d).filter isPolygonal).filterMap polyDataOf)))
      rows out :=
  (load_grid_forall₂ h).imp (fun _ _ hft => coerceToMultiPolygon_to_2d_ok hft.2.1)

/-- Witness for `load_grid_geometry_normalization` on a concrete feature
whose geometry collection holds one polygon (with altitudes) and one point
artifact. -/
theorem load_grid_geometry_normalization_witness :
    load_grid
      [{ name := "33UUU",
         geometry := Geometry.collection
           [BasicGeom.polygon ⟨[⟨0, 0, some 1⟩, ⟨1, 0, some 1⟩], []⟩,
            BasicGeom.point ⟨2, 2, some 3⟩] }] =
      Except.ok
        [{ tile_id := "33UUU",
           geometry := Geometry.basic (BasicGeom.multiPolygon
             [⟨[⟨0, 0, none⟩, ⟨1, 0, none⟩], []⟩]),
           utm_zone := 33, utm_north := true }] ∧
    List.Forall₂ (fun (f : GridFeature) (t : GridRow) =>
      geomIs2d t.geometry = true ∧ ∃ gs, geomsOf f.geometry = Except.ok gs ∧
        t.geometry = Geometry.basic (BasicGeom.multiPolygon
          (((gs.map basicTo2d).filter isPolygonal).filterMap polyDataOf)))
      [{ name := "33UUU",
         geometry := Geometry.collection
           [BasicGeom.polygon ⟨[⟨0, 0, some 1⟩, ⟨1, 0, some 1⟩], []⟩,
            BasicGeom.point ⟨2, 2, some 3⟩] }]
      [{ tile_id := "33UUU",
         geometry := Geometry.basic (BasicGeom.multiPolygon
           [⟨[⟨0, 0, none⟩, ⟨1, 0, none⟩], []⟩]),
         utm_zone := 33, utm_north := true }] :=
  ⟨by decide, load_grid_geometry_normalization (by decide)⟩

/-! ## Lemmas about `find_available_orbit_tiles` -/

theorem mem_dropDuplicates {α : Type} [DecidableEq α] :
    ∀ {l : List α} {x : α}, x ∈ dropDuplicates l ↔ x ∈ l := by
  intro l
  induction l with
  | nil => intro x; simp [dropDuplicates]
  | cons y l ih =>
    intro x
    simp only [dropDuplicates, List.mem_cons, List.mem_filter]
    constructor
    · rintro (rfl | ⟨hx, -⟩)
      · exact Or.inl rfl
      · exact Or.inr (ih.mp hx)
    · rintro (rfl | hx)
      · exact Or.inl rfl
      · by_cases hxy : x = y
        · exact Or.inl hxy
        · exact Or.inr ⟨ih.mpr hx, decide_eq_true hxy⟩

theorem mem_addPair {m : TileOrbits} {p : String × ℕ} {t : String} {v : ℕ} :
    v ∈ addPair m p t ↔ (t = p.1 ∧ v = p.2) ∨ v ∈ m t := by
  simp only [addPair]
  by_cases ht : t = p.1
  · subst ht
    simp [Finset.mem_insert]
  · rw [if_neg ht]
    simp [ht]

theorem mem_accumChunk :
    ∀ {pairs : List (String × ℕ)} {m : TileOrbits} {t : String} {v : ℕ},
      v ∈ accumChunk m pairs t ↔ v ∈ m t ∨ (t, v) ∈ pairs := by
  intro pairs
  induction pairs with
  | nil => intro m t v; simp [accumChunk]
  | cons p ps ih =>
    intro m t v
    have hstep : accumChunk m (p :: ps) = accumChunk (addPair m p) ps := rfl
    rw [hstep, ih, mem_addPair]
    simp only [List.mem_cons, Prod.ext_iff]
    tauto

theorem chunkPairs_ok_mem {chunk : List IndexRecord} {ps : List (String × ℕ)}
    (h : chunkPairs chunk = Except.ok ps) {t : String} {v : ℕ} :
    (t, v) ∈ ps ↔ ∃ r ∈ chunk, r.mgrs_tile = t ∧
      ∃ w, findOrbitMarker r.product_id.data = some w ∧ w % 256 = v := by
  constructor
  · intro hp
    obtain ⟨r, hr, hf⟩ := mapE_ok_mem h hp
    unfold extractPair at hf
    cases hw : findOrbitMarker r.product_id.data with
    | none => rw [hw] at hf; simp at hf
    | some w =>
      rw [hw] at hf
      injection hf with hf
      exact ⟨r, hr, congrArg Prod.fst hf, w, hw, congrArg Prod.snd hf⟩
  · rintro ⟨r, hr, rfl, w, hw, rfl⟩
    obtain ⟨y, hy, hf⟩ := mapE_ok_mem_left h hr
    unfold extractPair at hf
    rw [hw] at hf
    injection hf with hf
    rw [← hf] at hy
    exact hy

theorem extractPair_error {r : IndexRecord} {e : PyErr}
    (h : extractPair r = Except.error e) : e = PyErr.valueError := by
  unfold extractPair at h
  cases hw : findOrbitMarker r.product_id.data with
  | none => rw [hw] at h; injection h with h; exact h.symm
  | some w => rw [hw] at h; simp at h

theorem chunkPairs_error_val {chunk : List IndexRecord} {e : PyErr}
    (h : chunkPairs chunk = Except.error e) : e = PyErr.valueError := by
  obtain ⟨r, -, hf⟩ := mapE_error_elim h
  exact extractPair_error hf

theorem mapE_error_of_exists {α β : Type} {f : α → Except PyErr β} {e0 : PyErr}
    (hf : ∀ x e, f x = Except.error e → e = e0) :
    ∀ {xs : List α}, (∃ x ∈ xs, ∃ e, f x = Except.error e) →
      mapE f xs = Except.error e0 := by
  intro xs
  induction xs with
  | nil => rintro ⟨x, hx, -⟩; simp at hx
  | cons x xs ih =>
    rintro ⟨y, hy, e1, hbad⟩
    simp only [mapE]
    cases hfx : f x with
    | error e =>
      have := hf x e hfx
      subst this
      rfl
    | ok v =>
      rcases List.mem_cons.mp hy with rfl | hmem
      · rw [hfx] at hbad; exact absurd hbad (by simp)
      · rw [ih ⟨y, hmem, e1, hbad⟩]

theorem chunkPairs_error_of_bad {chunk : List IndexRecord}
    (h : ∃ r ∈ chunk, findOrbitMarker r.product_id.data = none) :
    chunkPairs chunk = Except.error PyErr.valueError := by
  obtain ⟨r, hr, hnone⟩ := h
  refine mapE_error_of_exists (fun x e hx => extractPair_error hx)
    ⟨r, hr, PyErr.valueError, ?_⟩
  unfold extractPair
  rw [hnone]

theorem runChunks_ok_mem :
    ∀ {chunks : List (List IndexRecord)} {m m' : TileOrbits},
      runChunks m chunks = Except.ok m' → ∀ (t : String) (v : ℕ),
      v ∈ m' t ↔ v ∈ m t ∨ ∃ r ∈ chunks.flatten, r.mgrs_tile = t ∧
        ∃ w, findOrbitMarker r.product_id.data = some w ∧ w % 256 = v := by
  intro chunks
  induction chunks with
  | nil =>
    intro m m' h t v
    simp only [runChunks] at h
    injection h with h
    subst h
    simp
  | cons c cs ih =>
    intro m m' h t v
    simp only [runChunks] at h
    cases hc : chunkPairs c with
    | error e => rw [hc] at h; exact absurd h (by simp)
    | ok pairs =>
      rw [hc] at h
      rw [ih h t v, mem_accumChunk, mem_dropDuplicates, chunkPairs_ok_mem hc]
      have hflat : ∀ r : IndexRecord, r ∈ (c :: cs).flatten ↔ r ∈ c ∨ r ∈ cs.flatten := by
        intro r
        rw [List.flatten_cons, List.mem_append]
      constructor
      · rintro ((hv | ⟨r, hr, hrest⟩) | ⟨r, hr, hrest⟩)
        · exact Or.inl hv
        · exact Or.inr ⟨r, (hflat r).mpr (Or.inl hr), hrest⟩
        · exact Or.inr ⟨r, (hflat r).mpr (Or.inr hr), hrest⟩
      · rintro (hv | ⟨r, hr, hrest⟩)
        · exact Or.inl (Or.inl hv)
        · rcases (hflat r).mp hr with hr' | hr'
          · exact Or.inl (Or.inr ⟨r, hr', hrest⟩)
          · exact Or.inr ⟨r, hr', hrest⟩

theorem runChunks_ok_of_all :
    ∀ {chunks : List (List IndexRecord)} (m : TileOrbits),
      (∀ r ∈ chunks.flatten, (findOrbitMarker r.product_id.data).isSome = true) →
      ∃ m', runChunks m chunks = Except.ok m' := by
  intro chunks
  induction chunks with
  | nil => intro m _; exact ⟨m, rfl⟩
  | cons c cs ih =>
    intro m hall
    have hc : ∀ r ∈ c, ∃ y, extractPair r = Except.ok y := by
      intro r hr
      have := hall r (by rw [List.flatten_cons, List.mem_append]; exact Or.inl hr)
      cases hw : findOrbitMarker r.product_id.data with
      | none => rw [hw] at this; simp at this
      | some w => exact ⟨(r.mgrs_tile, w % 256), by unfold extractPair; rw [hw]⟩
    obtain ⟨pairs, hpairs⟩ := mapE_ok_of_forall hc
    obtain ⟨m', hm'⟩ := ih (accumChunk m (dropDuplicates pairs))
      (fun r hr => hall r (by rw [List.flatten_cons, List.mem_append]; exact Or.inr hr))
    exact ⟨m', by simp only [runChunks]; rw [show chunkPairs c = Except.ok pairs from hpairs]; exact hm'⟩

theorem runChunks_error_of_bad :
    ∀ {chunks : List (List IndexRecord)} (m : TileOrbits),
      (∃ r ∈ chunks.flatten, findOrbitMarker r.product_id.data = none) →
      runChunks m chunks = Except.error PyErr.valueError := by
  intro chunks
  induction chunks with
  | nil => rintro m ⟨r, hr, -⟩; simp at hr
  | cons c cs ih =>
    rintro m ⟨r, hr, hbad⟩
    rw [List.flatten_cons, List.mem_append] at hr
    simp only [runChunks]
    rcases hr with hr | hr
    · rw [chunkPairs_error_of_bad ⟨r, hr, hbad⟩]
    · cases hc : chunkPairs c with
      | error e => rw [chunkPairs_error_val hc]
      | ok pairs => exact ih _ ⟨r, hr, hbad⟩

/-- Membership in the per-tile orbit set the code computes. -/
theorem mem_codeOrbitSet {records : List IndexRecord} {t : String} {v : ℕ} :
    v ∈ codeOrbitSet records t ↔ ∃ r ∈ records, r.mgrs_tile = t ∧
      ∃ w, findOrbitMarker r.product_id.data = some w ∧ w % 256 = v := by
  simp only [codeOrbitSet, List.mem_toFinset, List.mem_filterMap, List.mem_filter]
  constructor
  · rintro ⟨r, ⟨hr, ht⟩, hmap⟩
    obtain ⟨w, hw, hwv⟩ := Option.map_eq_some'.mp hmap
    exact ⟨r, hr, of_decide_eq_true ht, w, hw, hwv⟩
  · rintro ⟨r, hr, rfl, w, hw, rfl⟩
    exact ⟨r, ⟨hr, decide_eq_true rfl⟩, by rw [hw]; rfl⟩

/-! ## Claim theorems for `find_available_orbit_tiles` -/

/-- C6 (amended): whenever every record's product id matches the extraction
pattern (`_R` + three digits + `_`), `find_available_orbit_tiles` returns
the same mapping for ANY chunking of the same record stream, and for each
tile code the resulting set is exactly the set of values extracted from the
first `_R(\d{3})_` match of each of that tile's product identifiers,
reduced modulo 256 by the `uint8` conversion. -/
theorem chunking_independent_tile_orbit_map
    {chunks chunks2 : List (List IndexRecord)}
    (hj : chunks.flatten = chunks2.flatten)
    (hall : ∀ r ∈ chunks.flatten, (findOrbitMarker r.product_id.data).isSome = true) :
    ∃ m, find_available_orbit_tiles chunks = Except.ok m ∧
      find_available_orbit_tiles chunks2 = Except.ok m ∧
      ∀ t, m t = codeOrbitSet chunks.flatten t := by
  obtain ⟨m, hm⟩ := runChunks_ok_of_all (fun _ => (∅ : Finset ℕ)) hall
  obtain ⟨m2, hm2⟩ := runChunks_ok_of_all (fun _ => (∅ : Finset ℕ)) (hj ▸ hall)
  have hmt : ∀ t, m t = codeOrbitSet chunks.flatten t := by
    intro t
    apply Finset.ext
    intro v
    rw [runChunks_ok_mem hm t v, mem_codeOrbitSet]
    simp
  have hm2t : ∀ t, m2 t = codeOrbitSet chunks.flatten t := by
    intro t
    apply Finset.ext
    intro v
    rw [runChunks_ok_mem hm2 t v, mem_codeOrbitSet, ← hj]
    simp
  have hmm : m2 = m := funext (fun t => (hm2t t).trans (hmt t).symm)
  exact ⟨m, hm, by rw [← hmm]; exact hm2, hmt⟩

/-- C6 counterexample to the claim as stated: the record
`("S2B_MSIL1C_R123", "51RTP")` carries the three digits `123` directly
after the literal `_R` marker, so by the claim the run must produce a
mapping sending `"51RTP"` to a set containing `123`; but the code's regex
`_R(\d{3})_` also requires a trailing underscore, the extraction yields
`NaN`, and the whole run raises `ValueError` instead of producing any
mapping. -/
theorem orbit_marker_underscore_required_cex :
    (123 : ℕ) ∈ claimOrbitSet
      [{ product_id := "S2B_MSIL1C_R123", mgrs_tile := "51RTP" }] "51RTP" ∧
    find_available_orbit_tiles
      [[{ product_id := "S2B_MSIL1C_R123", mgrs_tile := "51RTP" }]] =
      Except.error PyErr.valueError :=
  ⟨by decide, rfl⟩

/-- Witness for `chunking_independent_tile_orbit_map`: the same two-record
catalog streamed as two one-record chunks versus one two-record chunk. -/
theorem chunking_independent_tile_orbit_map_witness :
    ([[{ product_id := "S2A_MSIL2A_R022_T33UUU", mgrs_tile := "33UUU" }],
      [{ product_id := "S2A_MSIL2A_R065_T33UUU", mgrs_tile := "33UUU" }]] :
      List (List IndexRecord)).flatten =
    ([[{ product_id := "S2A_MSIL2A_R022_T33UUU", mgrs_tile := "33UUU" },
       { product_id := "S2A_MSIL2A_R065_T33UUU", mgrs_tile := "33UUU" }]] :
      List (List IndexRecord)).flatten ∧
    (∀ r ∈ ([[{ product_id := "S2A_MSIL2A_R022_T33UUU", mgrs_tile := "33UUU" }],
      [{ product_id := "S2A_MSIL2A_R065_T33UUU", mgrs_tile := "33UUU" }]] :
      List (List IndexRecord)).flatten,
      (findOrbitMarker r.product_id.data).isSome = true) ∧
    (∃ m, find_available_orbit_tiles
        [[{ product_id := "S2A_MSIL2A_R022_T33UUU", mgrs_tile := "33UUU" }],
         [{ product_id := "S2A_MSIL2A_R065_T33UUU", mgrs_tile := "33UUU" }]] =
        Except.ok m ∧
      find_available_orbit_tiles
        [[{ product_id := "S2A_MSIL2A_R022_T33UUU", mgrs_tile := "33UUU" },
          { product_id := "S2A_MSIL2A_R065_T33UUU", mgrs_tile := "33UUU" }]] =
        Except.ok m ∧
      ∀ t, m t = codeOrbitSet
        ([[{ product_id := "S2A_MSIL2A_R022_T33UUU", mgrs_tile := "33UUU" }],
          [{ product_id := "S2A_MSIL2A_R065_T33UUU", mgrs_tile := "33UUU" }]] :
          List (List IndexRecord)).flatten t) :=
  ⟨rfl, by decide, chunking_independent_tile_orbit_map rfl (by decide)⟩

/-- C10: if any record in any chunk has a product identifier with no
`_R(\d{3})_` match, the whole run fails with `ValueError` (the `NaN` from
the failed extraction cannot be converted to `uint8`) rather than skipping
the record; and the function returns normally exactly when every record
matches. -/
theorem unmatched_product_id_fails_run (chunks : List (List IndexRecord)) :
    ((∃ r ∈ chunks.flatten, findOrbitMarker r.product_id.data = none) →
      find_available_orbit_tiles chunks = Except.error PyErr.valueError) ∧
    ((∀ r ∈ chunks.flatten, (findOrbitMarker r.product_id.data).isSome = true) →
      ∃ m, find_available_orbit_tiles chunks = Except.ok m) :=
  ⟨runChunks_error_of_bad (fun _ => (∅ : Finset ℕ)),
   runChunks_ok_of_all (fun _ => (∅ : Finset ℕ))⟩

/-- Witness for `unmatched_product_id_fails_run`: a two-chunk catalog whose
second chunk holds a record without the `_Rddd_` marker; the run fails even
though the first chunk is fine. -/
theorem unmatched_product_id_fails_run_witness :
    (∃ r ∈ ([[{ product_id := "S2A_MSIL2A_R022_T33UUU", mgrs_tile := "33UUU" }],
       [{ product_id := "S2A_MSIL2A_T07MAA", mgrs_tile := "07MAA" }]] :
       List (List IndexRecord)).flatten,
      findOrbitMarker r.product_id.data = none) ∧
    find_available_orbit_tiles
      [[{ product_id := "S2A_MSIL2A_R022_T33UUU", mgrs_tile := "33UUU" }],
       [{ product_id := "S2A_MSIL2A_T07MAA", mgrs_tile := "07MAA" }]] =
      Except.error PyErr.valueError :=
  ⟨by decide,
   (unmatched_product_id_fails_run
     [[{ product_id := "S2A_MSIL2A_R022_T33UUU", mgrs_tile := "33UUU" }],
      [{ product_id := "S2A_MSIL2A_T07MAA", mgrs_tile := "07MAA" }]]).1 (by decide)⟩

end S2Orbit
